import Mathlib

/-!
# Verification of the ZX16 two-pass assembler core

This development shallowly embeds the ZX16 assembler (Python sources:
`constants.py`, `definitions.py`, `error_handler.py`, `first_pass_parser.py`,
`second_pass_encoder.py`) in Lean 4 and settles the frozen claims about it.

Conventions of the embedding:
* Python `int` is Lean `Int`.  Python `x % n` (for `n > 0`) is `Int.emod`,
  Python `x >> k` is `Int.fdiv x (2^k)`, Python `int(x / 2)` (float division
  then truncation) is `Int.tdiv x 2`, and Python `x & (2^k - 1)` is
  `Int.emod x (2^k)`.
* Fallible Python code (uncaught `ValueError`, `IndexError`,
  `AttributeError`) is modelled with `Except PExc`.  Loops whose
  termination is not structural carry an explicit fuel argument; fuel
  exhaustion is the distinguished outcome `PExc.outOfFuel` (it models a
  Python run that has not yet reached the point of interest, never an
  exception raised by the program).
* The global static error accumulator `Zx16Errors` is threaded as an
  explicit `errors` list in each pass's state.
-/

namespace ZX16

/-! ## Python numeric semantics -/

/-- Python `int(x / 2)`: float division then truncation toward zero. -/
def pyTruncDiv2 (x : Int) : Int := Int.tdiv x 2

/-- Python `x >> k` on `int` (arithmetic shift = floor division). -/
def pyShr (x : Int) (k : Nat) : Int := Int.fdiv x (2 ^ k)

/-- Python `x & m` for a mask `m < 2^16`: the low two's-complement bits of
`x` and'ed with `m`.  Valid because every mask used by the encoder fits in
16 bits. -/
def pyAnd16 (x : Int) (m : Nat) : Nat := (Int.toNat (Int.emod x (2 ^ 16))) &&& m

/-- Decimal digit value. -/
def digitVal (c : Char) : Option Nat :=
  if '0' ≤ c ∧ c ≤ '9' then some (c.toNat - '0'.toNat) else none

/-- Hex digit value. -/
def hexDigitVal (c : Char) : Option Nat :=
  if '0' ≤ c ∧ c ≤ '9' then some (c.toNat - '0'.toNat)
  else if 'a' ≤ c ∧ c ≤ 'f' then some (c.toNat - 'a'.toNat + 10)
  else if 'A' ≤ c ∧ c ≤ 'F' then some (c.toNat - 'A'.toNat + 10)
  else none

/-- Digit value in base `b` (2, 8, 10 or 16). -/
def digitValBase (b : Nat) (c : Char) : Option Nat :=
  match hexDigitVal c with
  | some d => if d < b then some d else none
  | none => none

/-- Read a non-empty digit string in base `b`. -/
def readDigits (b : Nat) (cs : List Char) : Option Nat :=
  match cs with
  | [] => none
  | _ =>
    cs.foldl (fun acc c =>
      match acc, digitValBase b c with
      | some a, some d => some (a * b + d)
      | _, _ => none) (some 0)

/-- Python `int(s)` (base 10): optional sign then decimal digits (leading
zeros allowed).  Whitespace stripping and `_` separators are outside the
scope of the claims and not modelled. -/
def pyIntBase10 (s : String) : Option Int :=
  match s.data with
  | '-' :: rest => (readDigits 10 rest).map (fun n => -(n : Int))
  | '+' :: rest => (readDigits 10 rest).map (fun n => (n : Int))
  | cs => (readDigits 10 cs).map (fun n => (n : Int))

/-- Unsigned part of Python `int(s, 0)`: base auto-detection by prefix
`0x`/`0X`, `0b`/`0B`, `0o`/`0O`, else decimal.  Python rejects a bare
decimal literal with a leading zero (other than `0` itself) in base 0. -/
def readBase0 (cs : List Char) : Option Nat :=
  match cs with
  | '0' :: x :: rest =>
    if x = 'x' ∨ x = 'X' then readDigits 16 rest
    else if x = 'b' ∨ x = 'B' then readDigits 2 rest
    else if x = 'o' ∨ x = 'O' then readDigits 8 rest
    else none
  | _ => readDigits 10 cs

/-- Python `int(s, 0)`: optional sign, then base auto-detection. -/
def pyIntBase0 (s : String) : Option Int :=
  match s.data with
  | '-' :: rest => (readBase0 rest).map (fun n => -(n : Int))
  | '+' :: rest => (readBase0 rest).map (fun n => (n : Int))
  | cs => (readBase0 cs).map (fun n => (n : Int))

/-- ASCII lower-casing of one character (the fragment of Python
`str.lower` exercised by mnemonics and directives). -/
def charLower (c : Char) : Char :=
  if 'A' ≤ c ∧ c ≤ 'Z' then Char.ofNat (c.toNat + 32) else c

/-- Python `str.lower()` (ASCII fragment). -/
def pyLower (s : String) : String := String.mk (s.data.map charLower)

/-- Python `int(s, 2)` restricted to the binary constant strings of the
instruction table (strings of `0`/`1` characters). -/
def binVal (s : String) : Nat :=
  s.data.foldl (fun a c => 2 * a + (if c = '1' then 1 else 0)) 0

/-- Modelled Python exceptions, plus the distinguished fuel-exhaustion
marker for loops whose termination is not structural. -/
inductive PExc where
  | valueError
  | indexError
  | attributeError
  | outOfFuel
  deriving DecidableEq, Repr

instance {ε α : Type} [DecidableEq ε] [DecidableEq α] : DecidableEq (Except ε α) :=
  fun a b =>
    match a, b with
    | .ok x, .ok y => if h : x = y then .isTrue (by rw [h]) else .isFalse (by simp [h])
    | .error x, .error y =>
      if h : x = y then .isTrue (by rw [h]) else .isFalse (by simp [h])
    | .ok _, .error _ => .isFalse (by simp)
    | .error _, .ok _ => .isFalse (by simp)

/-! ## Data model (`definitions.py` / `constants.py`) -/

/-- `TokenType` from `constants.py` / `definitions.py`. -/
inductive TokenType where
  | IDENTIFIER
  | REGISTER
  | IMMEDIATE
  | LABEL
  | DIRECTIVE
  | STRING
  | CHARACTER
  | NEWLINE
  | COMMA
  | LPAREN
  | RPAREN
  | OPERATOR
  | EOF
  deriving DecidableEq, Repr

/-- `Token` from `definitions.py` (dataclass with `was_label` defaulting to
`False`). -/
structure Token where
  type : TokenType
  value : String
  line : Nat
  column : Nat
  was_label : Bool := false
  deriving DecidableEq, Repr

/-- The four layout sections (`.inter`, `.text`, `.data`, `.bss`). -/
inductive Section where
  | inter
  | text
  | data
  | bss
  deriving DecidableEq, Repr

/-- A symbol's section: a layout section or the pseudo-section `const`
used for `.equ`/`.set` constants. -/
inductive SymbolSection where
  | sec (s : Section)
  | const
  deriving DecidableEq, Repr

/-- `Symbol` from `definitions.py`. -/
structure Symbol where
  name : String
  value : Int
  «section» : SymbolSection
  defined : Bool := false
  global_symbol : Bool := false
  line : Nat := 0
  deriving DecidableEq, Repr

/-- `AssemblerMessage` from `error_handler.py`. -/
structure AssemblerMessage where
  message : String
  line : Nat
  column : Nat
  deriving DecidableEq, Repr

/-- `Zx16Errors.has_errors` from `error_handler.py`. -/
def has_errors (errors : List AssemblerMessage) : Bool :=
  errors.length > 0

/-- Modelled from the spec: the driver that gates assembly success on the
diagnostics list is not under `src/` (`main.py` is a stale variant that
ignores `Zx16Errors`); per §4.4/§7, "A non-empty error list after both
passes fails the assembly". -/
def assemblySucceeds (errors : List AssemblerMessage) : Bool :=
  !(has_errors errors)

/-- An apostrophe, used to build error-message strings verbatim. -/
def apos : String := String.mk [Char.ofNat 39]

/-- `MemoryAllocation` from `constants.py` (all four fields are always
provided by the instruction table, so the `None` defaults are dropped). -/
structure MemoryAllocation where
  m_beginning : Nat
  m_end : Nat
  i_beginning : Nat
  i_end : Nat
  deriving DecidableEq, Repr

/-- `Placeholder` from `constants.py`: the element type of the instruction
table.  The source default for `allocations` is `None`; the encoder only
tests its truthiness, for which the empty-list default is equivalent. -/
structure Placeholder where
  expected_token : Option TokenType := none
  const_value : Option String := none
  allocations : List MemoryAllocation := []
  beginning : Nat := 0
  «end» : Nat := 0
  deriving DecidableEq, Repr

/-- `DEFAULT_SYMBOLS` from `constants.py`. -/
def CODE_START : Int := 0x0020
def MMIO_BASE : Int := 0xF000
def STACK_TOP : Int := 0xEFFE
def INT_VECTORS : Int := 0x0000
def MEM_SIZE : Nat := 0x10000

/-- `PSEUDO_INSTRUCTIONS` from `constants.py`: pseudo-instruction sizes in
bytes. -/
def PSEUDO_INSTRUCTIONS : List (String × Int) :=
  [("li16", 4), ("la", 4), ("push", 4), ("pop", 4), ("call", 2), ("ret", 2),
   ("inc", 2), ("dec", 2), ("neg", 4), ("not", 2), ("clr", 2), ("nop", 2)]

/-- `INSTRUCTION_FORMAT` from `constants.py`, verbatim (an ordered
association list standing for the Python dict). -/
def INSTRUCTION_FORMAT : List (String × List Placeholder) :=
  [ -- R-Type Instructions (opcode 000)
    ("add",
      [{ const_value := some "000", beginning := 0, «end» := 2 },
       { const_value := some "000", beginning := 3, «end» := 5 },
       { expected_token := some .REGISTER, beginning := 6, «end» := 8 },
       { expected_token := some .COMMA },
       { expected_token := some .REGISTER, beginning := 9, «end» := 11 },
       { const_value := some "0000", beginning := 12, «end» := 15 }]),
    ("sub",
      [{ const_value := some "000", beginning := 0, «end» := 2 },
       { const_value := some "000", beginning := 3, «end» := 5 },
       { expected_token := some .REGISTER, beginning := 6, «end» := 8 },
       { expected_token := some .COMMA },
       { expected_token := some .REGISTER, beginning := 9, «end» := 11 },
       { const_value := some "0001", beginning := 12, «end» := 15 }]),
    ("slt",
      [{ const_value := some "000", beginning := 0, «end» := 2 },
       { const_value := some "001", beginning := 3, «end» := 5 },
       { expected_token := some .REGISTER, beginning := 6, «end» := 8 },
       { expected_token := some .COMMA },
       { expected_token := some .REGISTER, beginning := 9, «end» := 11 },
       { const_value := some "0010", beginning := 12, «end» := 15 }]),
    ("sltu",
      [{ const_value := some "000", beginning := 0, «end» := 2 },
       { const_value := some "010", beginning := 3, «end» := 5 },
       { expected_token := some .REGISTER, beginning := 6, «end» := 8 },
       { expected_token := some .COMMA },
       { expected_token := some .REGISTER, beginning := 9, «end» := 11 },
       { const_value := some "0011", beginning := 12, «end» := 15 }]),
    ("sll",
      [{ const_value := some "000", beginning := 0, «end» := 2 },
       { const_value := some "011", beginning := 3, «end» := 5 },
       { expected_token := some .REGISTER, beginning := 6, «end» := 8 },
       { expected_token := some .COMMA },
       { expected_token := some .REGISTER, beginning := 9, «end» := 11 },
       { const_value := some "0100", beginning := 12, «end» := 15 }]),
    ("srl",
      [{ const_value := some "000", beginning := 0, «end» := 2 },
       { const_value := some "011", beginning := 3, «end» := 5 },
       { expected_token := some .REGISTER, beginning := 6, «end» := 8 },
       { expected_token := some .COMMA },
       { expected_token := some .REGISTER, beginning := 9, «end» := 11 },
       { const_value := some "0101", beginning := 12, «end» := 15 }]),
    ("sra",
      [{ const_value := some "000", beginning := 0, «end» := 2 },
       { const_value := some "011", beginning := 3, «end» := 5 },
       { expected_token := some .REGISTER, beginning := 6, «end» := 8 },
       { expected_token := some .COMMA },
       { expected_token := some .REGISTER, beginning := 9, «end» := 11 },
       { const_value := some "0110", beginning := 12, «end» := 15 }]),
    ("or",
      [{ const_value := some "000", beginning := 0, «end» := 2 },
       { const_value := some "100", beginning := 3, «end» := 5 },
       { expected_token := some .REGISTER, beginning := 6, «end» := 8 },
       { expected_token := some .COMMA },
       { expected_token := some .REGISTER, beginning := 9, «end» := 11 },
       { const_value := some "0111", beginning := 12, «end» := 15 }]),
    ("and",
      [{ const_value := some "000", beginning := 0, «end» := 2 },
       { const_value := some "101", beginning := 3, «end» := 5 },
       { expected_token := some .REGISTER, beginning := 6, «end» := 8 },
       { expected_token := some .COMMA },
       { expected_token := some .REGISTER, beginning := 9, «end» := 11 },
       { const_value := some "1000", beginning := 12, «end» := 15 }]),
    ("xor",
      [{ const_value := some "000", beginning := 0, «end» := 2 },
       { const_value := some "110", beginning := 3, «end» := 5 },
       { expected_token := some .REGISTER, beginning := 6, «end» := 8 },
       { expected_token := some .COMMA },
       { expected_token := some .REGISTER, beginning := 9, «end» := 11 },
       { const_value := some "1001", beginning := 12, «end» := 15 }]),
    ("mv",
      [{ const_value := some "000", beginning := 0, «end» := 2 },
       { const_value := some "111", beginning := 3, «end» := 5 },
       { expected_token := some .REGISTER, beginning := 6, «end» := 8 },
       { expected_token := some .COMMA },
       { expected_token := some .REGISTER, beginning := 9, «end» := 11 },
       { const_value := some "1010", beginning := 12, «end» := 15 }]),
    ("jr",
      [{ const_value := some "000", beginning := 0, «end» := 2 },
       { const_value := some "000", beginning := 3, «end» := 5 },
       { expected_token := some .REGISTER, beginning := 6, «end» := 8 },
       { const_value := some "000", beginning := 9, «end» := 11 },
       { const_value := some "1011", beginning := 12, «end» := 15 }]),
    ("jalr",
      [{ const_value := some "000", beginning := 0, «end» := 2 },
       { const_value := some "000", beginning := 3, «end» := 5 },
       { expected_token := some .REGISTER, beginning := 6, «end» := 8 },
       { expected_token := some .COMMA },
       { expected_token := some .REGISTER, beginning := 9, «end» := 11 },
       { const_value := some "1100", beginning := 12, «end» := 15 }]),
    -- I-Type Instructions (opcode 001)
    ("addi",
      [{ const_value := some "001", beginning := 0, «end» := 2 },
       { const_value := some "000", beginning := 3, «end» := 5 },
       { expected_token := some .REGISTER, beginning := 6, «end» := 8 },
       { expected_token := some .COMMA },
       { expected_token := some .IMMEDIATE, beginning := 9, «end» := 15 }]),
    ("slti",
      [{ const_value := some "001", beginning := 0, «end» := 2 },
       { const_value := some "001", beginning := 3, «end» := 5 },
       { expected_token := some .REGISTER, beginning := 6, «end» := 8 },
       { expected_token := some .COMMA },
       { expected_token := some .IMMEDIATE, beginning := 9, «end» := 15 }]),
    ("sltui",
      [{ const_value := some "001", beginning := 0, «end» := 2 },
       { const_value := some "010", beginning := 3, «end» := 5 },
       { expected_token := some .REGISTER, beginning := 6, «end» := 8 },
       { expected_token := some .COMMA },
       { expected_token := some .IMMEDIATE, beginning := 9, «end» := 15 }]),
    ("slli",
      [{ const_value := some "001", beginning := 0, «end» := 2 },
       { const_value := some "011", beginning := 3, «end» := 5 },
       { expected_token := some .REGISTER, beginning := 6, «end» := 8 },
       { expected_token := some .COMMA },
       { expected_token := some .IMMEDIATE, beginning := 9, «end» := 12 },
       { const_value := some "001", beginning := 13, «end» := 15 }]),
    ("srli",
      [{ const_value := some "001", beginning := 0, «end» := 2 },
       { const_value := some "011", beginning := 3, «end» := 5 },
       { expected_token := some .REGISTER, beginning := 6, «end» := 8 },
       { expected_token := some .COMMA },
       { expected_token := some .IMMEDIATE, beginning := 9, «end» := 12 },
       { const_value := some "010", beginning := 13, «end» := 15 }]),
    ("srai",
      [{ const_value := some "001", beginning := 0, «end» := 2 },
       { const_value := some "011", beginning := 3, «end» := 5 },
       { expected_token := some .REGISTER, beginning := 6, «end» := 8 },
       { expected_token := some .COMMA },
       { expected_token := some .IMMEDIATE, beginning := 9, «end» := 12 },
       { const_value := some "100", beginning := 13, «end» := 15 }]),
    ("ori",
      [{ const_value := some "001", beginning := 0, «end» := 2 },
       { const_value := some "100", beginning := 3, «end» := 5 },
       { expected_token := some .REGISTER, beginning := 6, «end» := 8 },
       { expected_token := some .COMMA },
       { expected_token := some .IMMEDIATE, beginning := 9, «end» := 15 }]),
    ("andi",
      [{ const_value := some "001", beginning := 0, «end» := 2 },
       { const_value := some "101", beginning := 3, «end» := 5 },
       { expected_token := some .REGISTER, beginning := 6, «end» := 8 },
       { expected_token := some .COMMA },
       { expected_token := some .IMMEDIATE, beginning := 9, «end» := 15 }]),
    ("xori",
      [{ const_value := some "001", beginning := 0, «end» := 2 },
       { const_value := some "110", beginning := 3, «end» := 5 },
       { expected_token := some .REGISTER, beginning := 6, «end» := 8 },
       { expected_token := some .COMMA },
       { expected_token := some .IMMEDIATE, beginning := 9, «end» := 15 }]),
    ("li",
      [{ const_value := some "001", beginning := 0, «end» := 2 },
       { const_value := some "111", beginning := 3, «end» := 5 },
       { expected_token := some .REGISTER, beginning := 6, «end» := 8 },
       { expected_token := some .COMMA },
       { expected_token := some .IMMEDIATE, beginning := 9, «end» := 15 }]),
    -- B-Type Instructions (opcode 010)
    ("beq",
      [{ const_value := some "010", beginning := 0, «end» := 2 },
       { const_value := some "000", beginning := 3, «end» := 5 },
       { expected_token := some .REGISTER, beginning := 6, «end» := 8 },
       { expected_token := some .COMMA },
       { expected_token := some .REGISTER, beginning := 9, «end» := 11 },
       { expected_token := some .COMMA },
       { expected_token := some .IMMEDIATE, beginning := 12, «end» := 15 }]),
    ("bne",
      [{ const_value := some "010", beginning := 0, «end» := 2 },
       { const_value := some "001", beginning := 3, «end» := 5 },
       { expected_token := some .REGISTER, beginning := 6, «end» := 8 },
       { expected_token := some .COMMA },
       { expected_token := some .REGISTER, beginning := 9, «end» := 11 },
       { expected_token := some .COMMA },
       { expected_token := some .IMMEDIATE, beginning := 12, «end» := 15 }]),
    ("bz",
      [{ const_value := some "010", beginning := 0, «end» := 2 },
       { const_value := some "010", beginning := 3, «end» := 5 },
       { expected_token := some .REGISTER, beginning := 6, «end» := 8 },
       { expected_token := some .COMMA },
       { expected_token := some .IMMEDIATE, beginning := 12, «end» := 15 }]),
    ("bnz",
      [{ const_value := some "010", beginning := 0, «end» := 2 },
       { const_value := some "011", beginning := 3, «end» := 5 },
       { expected_token := some .REGISTER, beginning := 6, «end» := 8 },
       { expected_token := some .COMMA },
       { expected_token := some .IMMEDIATE, beginning := 12, «end» := 15 }]),
    ("blt",
      [{ const_value := some "010", beginning := 0, «end» := 2 },
       { const_value := some "100", beginning := 3, «end» := 5 },
       { expected_token := some .REGISTER, beginning := 6, «end» := 8 },
       { expected_token := some .COMMA },
       { expected_token := some .REGISTER, beginning := 9, «end» := 11 },
       { expected_token := some .COMMA },
       { expected_token := some .IMMEDIATE, beginning := 12, «end» := 15 }]),
    ("bge",
      [{ const_value := some "010", beginning := 0, «end» := 2 },
       { const_value := some "101", beginning := 3, «end» := 5 },
       { expected_token := some .REGISTER, beginning := 6, «end» := 8 },
       { expected_token := some .COMMA },
       { expected_token := some .REGISTER, beginning := 9, «end» := 11 },
       { expected_token := some .COMMA },
       { expected_token := some .IMMEDIATE, beginning := 12, «end» := 15 }]),
    ("bltu",
      [{ const_value := some "010", beginning := 0, «end» := 2 },
       { const_value := some "110", beginning := 3, «end» := 5 },
       { expected_token := some .REGISTER, beginning := 6, «end» := 8 },
       { expected_token := some .COMMA },
       { expected_token := some .REGISTER, beginning := 9, «end» := 11 },
       { expected_token := some .COMMA },
       { expected_token := some .IMMEDIATE, beginning := 12, «end» := 15 }]),
    ("bgeu",
      [{ const_value := some "010", beginning := 0, «end» := 2 },
       { const_value := some "111", beginning := 3, «end» := 5 },
       { expected_token := some .REGISTER, beginning := 6, «end» := 8 },
       { expected_token := some .COMMA },
       { expected_token := some .REGISTER, beginning := 9, «end» := 11 },
       { expected_token := some .COMMA },
       { expected_token := some .IMMEDIATE, beginning := 12, «end» := 15 }]),
    -- S-Type Instructions (opcode 011)
    ("sb",
      [{ const_value := some "011", beginning := 0, «end» := 2 },
       { const_value := some "000", beginning := 3, «end» := 5 },
       { expected_token := some .REGISTER, beginning := 6, «end» := 8 },
       { expected_token := some .COMMA },
       { expected_token := some .IMMEDIATE, beginning := 12, «end» := 15 },
       { expected_token := some .LPAREN },
       { expected_token := some .REGISTER, beginning := 9, «end» := 11 },
       { expected_token := some .RPAREN }]),
    ("sw",
      [{ const_value := some "011", beginning := 0, «end» := 2 },
       { const_value := some "001", beginning := 3, «end» := 5 },
       { expected_token := some .REGISTER, beginning := 6, «end» := 8 },
       { expected_token := some .COMMA },
       { expected_token := some .IMMEDIATE, beginning := 12, «end» := 15 },
       { expected_token := some .LPAREN },
       { expected_token := some .REGISTER, beginning := 9, «end» := 11 },
       { expected_token := some .RPAREN }]),
    -- L-Type Instructions (opcode 100)
    ("lb",
      [{ const_value := some "100", beginning := 0, «end» := 2 },
       { const_value := some "000", beginning := 3, «end» := 5 },
       { expected_token := some .REGISTER, beginning := 6, «end» := 8 },
       { expected_token := some .COMMA },
       { expected_token := some .IMMEDIATE, beginning := 12, «end» := 15 },
       { expected_token := some .LPAREN },
       { expected_token := some .REGISTER, beginning := 9, «end» := 11 },
       { expected_token := some .RPAREN }]),
    ("lw",
      [{ const_value := some "100", beginning := 0, «end» := 2 },
       { const_value := some "001", beginning := 3, «end» := 5 },
       { expected_token := some .REGISTER, beginning := 6, «end» := 8 },
       { expected_token := some .COMMA },
       { expected_token := some .IMMEDIATE, beginning := 12, «end» := 15 },
       { expected_token := some .LPAREN },
       { expected_token := some .REGISTER, beginning := 9, «end» := 11 },
       { expected_token := some .RPAREN }]),
    ("lbu",
      [{ const_value := some "100", beginning := 0, «end» := 2 },
       { const_value := some "100", beginning := 3, «end» := 5 },
       { expected_token := some .REGISTER, beginning := 6, «end» := 8 },
       { expected_token := some .COMMA },
       { expected_token := some .IMMEDIATE, beginning := 12, «end» := 15 },
       { expected_token := some .LPAREN },
       { expected_token := some .REGISTER, beginning := 9, «end» := 11 },
       { expected_token := some .RPAREN }]),
    -- J-Type Instructions (opcode 101)
    ("j",
      [{ const_value := some "101", beginning := 0, «end» := 2 },
       { expected_token := some .IMMEDIATE,
         allocations :=
           [{ m_beginning := 3, m_end := 5, i_beginning := 1, i_end := 3 },
            { m_beginning := 9, m_end := 14, i_beginning := 4, i_end := 9 }] },
       { const_value := some "0", beginning := 15, «end» := 15 }]),
    ("jal",
      [{ const_value := some "101", beginning := 0, «end» := 2 },
       { expected_token := some .REGISTER, beginning := 3, «end» := 5 },
       { expected_token := some .COMMA },
       { expected_token := some .IMMEDIATE,
         allocations :=
           [{ m_beginning := 3, m_end := 5, i_beginning := 0, i_end := 2 },
            { m_beginning := 9, m_end := 14, i_beginning := 3, i_end := 8 }] },
       { const_value := some "1", beginning := 15, «end» := 15 }]),
    -- U-Type Instructions (opcode 110)
    ("lui",
      [{ const_value := some "110", beginning := 0, «end» := 2 },
       { expected_token := some .REGISTER, beginning := 6, «end» := 8 },
       { expected_token := some .COMMA },
       { expected_token := some .IMMEDIATE,
         allocations :=
           [{ m_beginning := 3, m_end := 5, i_beginning := 7, i_end := 9 },
            { m_beginning := 9, m_end := 14, i_beginning := 10, i_end := 15 }] },
       { const_value := some "0", beginning := 15, «end» := 15 }]),
    ("auipc",
      [{ const_value := some "110", beginning := 0, «end» := 2 },
       { expected_token := some .REGISTER, beginning := 6, «end» := 8 },
       { expected_token := some .COMMA },
       { expected_token := some .IMMEDIATE,
         allocations :=
           [{ m_beginning := 3, m_end := 5, i_beginning := 7, i_end := 9 },
            { m_beginning := 9, m_end := 14, i_beginning := 10, i_end := 15 }] },
       { const_value := some "1", beginning := 15, «end» := 15 }]),
    -- SYS-Type Instructions (opcode 111)
    ("ecall",
      [{ const_value := some "111", beginning := 0, «end» := 2 },
       { expected_token := some .IMMEDIATE, beginning := 6, «end» := 15 }])]

/-! ## Bit coverage of table entries (claim C2) -/

/-- The word-bit ranges a table field occupies: Constant and Register
fields span `beginning..end`; Immediate fields span their split
allocations (or `beginning..end` if contiguous); punctuation fields
occupy no bits. -/
def placeholderBitRanges (p : Placeholder) : List (Nat × Nat) :=
  match p.const_value with
  | some _ => [(p.beginning, p.«end»)]
  | none =>
    match p.expected_token with
    | some .REGISTER => [(p.beginning, p.«end»)]
    | some .IMMEDIATE =>
      if p.allocations = [] then [(p.beginning, p.«end»)]
      else p.allocations.map (fun a => (a.m_beginning, a.m_end))
    | _ => []

/-- How many of a mnemonic's field bit ranges contain bit `b`. -/
def coverCount (fs : List Placeholder) (b : Nat) : Nat :=
  (fs.map (fun p =>
    ((placeholderBitRanges p).filter (fun r => r.1 ≤ b ∧ b ≤ r.2)).length)).sum

/-- Bits 0..15 are each covered exactly once. -/
def exactCover (fs : List Placeholder) : Bool :=
  (List.range 16).all (fun b => coverCount fs b = 1)

/-- No word bit is claimed by two field ranges. -/
def noOverlap (fs : List Placeholder) : Bool :=
  (List.range 16).all (fun b => coverCount fs b ≤ 1)

/-- Fields of the given mnemonic (empty for unknown mnemonics). -/
def fieldsOf (m : String) : List Placeholder :=
  (List.lookup m INSTRUCTION_FORMAT).getD []

/-! ## First pass (`first_pass_parser.py`) -/

/-- Per-section `int` map: used for `section_pointers` and
`memory_layout` dictionaries (keys `.inter`, `.text`, `.data`, `.bss`). -/
structure SectionPtrs where
  inter : Int
  text : Int
  data : Int
  bss : Int
  deriving DecidableEq, Repr

def SectionPtrs.get (p : SectionPtrs) : Section → Int
  | .inter => p.inter
  | .text => p.text
  | .data => p.data
  | .bss => p.bss

def SectionPtrs.set (p : SectionPtrs) : Section → Int → SectionPtrs
  | .inter, v => { p with inter := v }
  | .text, v => { p with text := v }
  | .data, v => { p with data := v }
  | .bss, v => { p with bss := v }

/-- Pointwise `≤` on the four section pointers. -/
def SectionPtrs.le (p q : SectionPtrs) : Prop :=
  p.inter ≤ q.inter ∧ p.text ≤ q.text ∧ p.data ≤ q.data ∧ p.bss ≤ q.bss

instance : DecidablePred (fun pq : SectionPtrs × SectionPtrs => pq.1.le pq.2) :=
  fun _ => by unfold SectionPtrs.le; infer_instance

/-- Ordered string-keyed dict update (Python dict assignment: replace in
place if the key exists, else append). -/
def dictSet (d : List (String × Symbol)) (k : String) (v : Symbol) :
    List (String × Symbol) :=
  if (List.lookup k d).isSome then
    d.map (fun p => if p.1 = k then (k, v) else p)
  else d ++ [(k, v)]

/-- The synthesised `Token(TokenType.EOF, "", 1, 1)` literal the parser
fabricates at list ends. -/
def eofToken : Token := { type := .EOF, value := "", line := 1, column := 1 }

/-- The mutable state of `ZX16FirstPassParser`.  `errors` is the
`Zx16Errors` static accumulator. -/
structure P1State where
  tokens : List Token
  pos : Nat
  current_token : Token
  symbol_table : List (String × Symbol)
  current_section : Section
  section_pointers : SectionPtrs
  memory_layout : SectionPtrs
  errors : List AssemblerMessage
  deriving DecidableEq, Repr

/-- `ZX16FirstPassParser.__init__`. -/
def P1State.init (tokens : List Token) : P1State :=
  { tokens := tokens
    pos := 0
    current_token := tokens.headD eofToken
    symbol_table := []
    current_section := .text
    section_pointers := { inter := 0, text := 0, data := 0, bss := 0 }
    memory_layout := { inter := INT_VECTORS, text := CODE_START, data := 0, bss := 0 }
    errors := [] }

/-- `Zx16Errors.add_error`. -/
def P1State.addError (s : P1State) (msg : String) (line : Nat) (col : Nat := 0) :
    P1State :=
  { s with errors := s.errors ++ [{ message := msg, line := line, column := col }] }

/-- `ZX16FirstPassParser.define_symbol` (the boolean result is ignored by
every caller and dropped here). -/
def P1State.define_symbol (s : P1State) (name : String) (value : Int)
    (sec : SymbolSection) (line : Nat := 0) (is_global : Bool := false) : P1State :=
  let sym : Symbol :=
    { name := name, value := value, «section» := sec, defined := true
      global_symbol := is_global, line := line }
  match List.lookup name s.symbol_table with
  | some existing =>
    if existing.defined then
      s.addError ("Symbol " ++ apos ++ name ++ apos ++ " already defined") line
    else
      { s with symbol_table := dictSet s.symbol_table name sym }
  | none =>
    { s with symbol_table := dictSet s.symbol_table name sym }

/-- `ZX16FirstPassParser.advance`. -/
def P1State.advance (s : P1State) : P1State :=
  if s.pos < s.tokens.length - 1 then
    { s with pos := s.pos + 1, current_token := s.tokens.getD (s.pos + 1) eofToken }
  else s

/-- `ZX16FirstPassParser.advance_and_delete`. -/
def P1State.advance_and_delete (s : P1State) : P1State :=
  if s.pos < s.tokens.length - 1 then
    let tokens := s.tokens.eraseIdx s.pos
    { s with tokens := tokens
             current_token :=
               if tokens = [] then eofToken else tokens.getD s.pos eofToken }
  else { s with current_token := eofToken }

/-- `ZX16FirstPassParser.peek` (at the default offset 1, the only one
used). -/
def P1State.peek (s : P1State) : Token :=
  if s.pos + 1 < s.tokens.length then s.tokens.getD (s.pos + 1) eofToken
  else { type := .EOF, value := ""
         line := s.current_token.line, column := s.current_token.column }

/-- `ZX16FirstPassParser.reset`. -/
def P1State.reset (s : P1State) : P1State :=
  { s with pos := 0, current_token := s.tokens.headD eofToken }

/-- `ZX16FirstPassParser.pointer_advance`. -/
def P1State.pointer_advance (s : P1State) (size : Int := 2)
    (sec : Option Section := none) : P1State :=
  let target := sec.getD s.current_section
  { s with section_pointers :=
      s.section_pointers.set target (s.section_pointers.get target + size) }

/-- `ZX16FirstPassParser.current_address`. -/
def P1State.current_address (s : P1State) : Int :=
  s.section_pointers.get s.current_section

/-- `ZX16FirstPassParser.parse_constant`.  The `int(..., 0)` call is not
guarded in the source, so an unparsable value raises `ValueError`. -/
def parse_constant (s : P1State) : Except PExc P1State :=
  if s.peek.type ≠ .IDENTIFIER then
    .ok (s.addError "Expected identifier after directive" s.current_token.line)
  else
    let s := s.advance_and_delete
    let identifier := s.current_token.value
    if s.peek.type ≠ .COMMA then
      .ok (s.addError "Expected comma after identifier" s.current_token.line)
    else
      let s := s.advance_and_delete
      if ¬(s.peek.type = .IMMEDIATE ∨ s.peek.type = .CHARACTER) then
        .ok (s.addError "Expected immediate or character value after comma"
              s.current_token.line)
      else
        let s := s.advance_and_delete
        match pyIntBase0 s.current_token.value with
        | none => .error .valueError
        | some value =>
          let s := s.define_symbol identifier value .const s.current_token.line
          .ok s.advance_and_delete

/-- `ZX16FirstPassParser.parse_label`. -/
def parse_label (s : P1State) : P1State :=
  let label_name := s.current_token.value
  let s := s.define_symbol label_name s.current_address (.sec s.current_section)
    s.current_token.line
  s.advance_and_delete

/-- Outcome of the `.byte`/`.word` operand loops: fall through to the
trailing-comma check, or return from `parse_directive` early. -/
inductive DirFlow where
  | fallthrough (s : P1State)
  | ret (s : P1State)
  deriving DecidableEq, Repr

/-- The `.byte` operand loop of `ZX16FirstPassParser.parse_directive`.
Numeric interpolations in diagnostic messages are elided (no claim
inspects them). -/
def byteLoop (line : Nat) : Nat → P1State → Except PExc DirFlow
  | 0, _ => .error .outOfFuel
  | fuel + 1, s =>
    if s.peek.type = .IMMEDIATE ∨ s.peek.type = .CHARACTER then
      let s := s.advance
      match pyIntBase0 s.current_token.value with
      | none => .error .valueError
      | some value =>
        if value < 0 ∨ value > 255 then
          .ok (.ret (s.addError "Value is out of range for .byte directive (0-255)" line))
        else
          let s := s.pointer_advance 1
          if s.peek.type = .COMMA then byteLoop line fuel s.advance
          else .ok (.fallthrough s)
    else .ok (.fallthrough s)

/-- The `.word` operand loop of `ZX16FirstPassParser.parse_directive`. -/
def wordLoop (line : Nat) : Nat → P1State → Except PExc DirFlow
  | 0, _ => .error .outOfFuel
  | fuel + 1, s =>
    if s.peek.type = .IMMEDIATE ∨ s.peek.type = .CHARACTER then
      let s := s.advance
      match pyIntBase0 s.current_token.value with
      | none => .error .valueError
      | some value =>
        if value < 0 ∨ value > 65535 then
          .ok (.ret (s.addError "Value is out of range for .word directive (0-65535)" line))
        else
          let s := s.pointer_advance 2
          if s.peek.type = .COMMA then wordLoop line fuel s.advance
          else .ok (.fallthrough s)
    else .ok (.fallthrough s)

/-- The shared epilogue of the `.byte`/`.word` branches: trailing-comma
diagnostic, then the final `advance`. -/
def dataListEpilogue (directive : String) (flow : DirFlow) : P1State :=
  match flow with
  | .ret s => s
  | .fallthrough s =>
    let s :=
      if s.current_token.type = .COMMA then
        (s.addError ("Unexpected token after " ++ directive ++ " directive")
          s.peek.line).advance
      else s
    s.advance

/-- The `.org` branch of `ZX16FirstPassParser.parse_directive`. -/
def parse_org (s : P1State) (line : Nat) : Except PExc P1State :=
  if ¬(s.current_section = .text ∨ s.current_section = .inter) then
    .ok (s.addError ".org directive can only be used in the .text section" line)
  else if s.peek.type ≠ .IMMEDIATE then
    .ok (s.addError "Expected immediate value after .org directive" line)
  else
    let s := s.advance
    match pyIntBase0 s.current_token.value with
    | none => .error .valueError
    | some value =>
      if Int.emod value 2 ≠ 0 then
        .ok (s.addError "Value is not aligned (not a multiple of 2) for .org directive" line)
      else if value < 0 ∨ value ≥ STACK_TOP then
        .ok (s.addError "Value out of range for .org directive (RAM, ROM, interrupt)" line)
      else if value < CODE_START then
        .ok ({ s with current_section := .inter
                      section_pointers := s.section_pointers.set .inter value }).advance
      else
        .ok ({ s with current_section := .text
                      section_pointers :=
                        s.section_pointers.set .text (value - CODE_START) }).advance

/-- The `.string`/`.ascii` branch of `parse_directive`. -/
def parse_string_ascii (directive : String) (s : P1State) (line : Nat) :
    Except PExc P1State :=
  if s.peek.type = .STRING then
    let s := s.advance
    let string_len : Int :=
      (s.current_token.value.length : Int) + (if directive = ".string" then 1 else 0)
    .ok ((s.pointer_advance string_len).advance)
  else .ok (s.addError ("Expected string after " ++ directive) line)

/-- The `.space` branch of `parse_directive`.  The source calls `int(...)`
here WITHOUT base auto-detection. -/
def parse_space (s : P1State) (line : Nat) : Except PExc P1State :=
  if s.peek.type ≠ .IMMEDIATE then
    .ok (s.addError "Expected size after .space directive" line)
  else
    let s := s.advance
    match pyIntBase10 s.current_token.value with
    | none => .error .valueError
    | some space_size => .ok ((s.pointer_advance space_size).advance)

/-- The `.fill` branch of `parse_directive` (item count parsed with bare
`int(...)`, size and value with base auto-detection). -/
def parse_fill (s : P1State) (line : Nat) : Except PExc P1State :=
  if s.peek.type ≠ .IMMEDIATE then
    .ok (s.addError "Expected size after .fill directive" line)
  else
    let s := s.advance
    match pyIntBase10 s.current_token.value with
    | none => .error .valueError
    | some fill_items =>
      if fill_items < 0 then
        .ok (s.addError "items for .fill directive one at least " line)
      else if s.peek.type ≠ .COMMA then
        .ok (s.addError "Expected comma after size in .fill directive" line)
      else
        let s := s.advance
        if s.peek.type ≠ .IMMEDIATE then
          .ok (s.addError "Expected fill value after comma in .fill directive" line)
        else
          let s := s.advance
          match pyIntBase0 s.current_token.value with
          | none => .error .valueError
          | some fill_size =>
            if ¬(fill_size = 1 ∨ fill_size = 2) then
              .ok (s.addError "Fill size must be 1 or 2 bytes" line)
            else if fill_items * fill_size > 65536 then
              .ok (s.addError "Total size for .fill directive exceeds 65536 bytes" line)
            else if s.peek.type ≠ .COMMA then
              .ok (s.addError "Expected comma after fill value in .fill directive" line)
            else
              let s := s.advance
              if s.peek.type ≠ .IMMEDIATE then
                .ok (s.addError "Expected fill value after comma in .fill directive" line)
              else
                let s := s.advance
                match pyIntBase0 s.current_token.value with
                | none => .error .valueError
                | some _value =>
                  .ok ((s.pointer_advance (fill_size * fill_items)).advance)

/-- `ZX16FirstPassParser.parse_directive` (each directive's branch is a
helper definition above). -/
def parse_directive (fuel : Nat) (s : P1State) : Except PExc P1State :=
  let directive := pyLower s.current_token.value
  let line := s.current_token.line
  if directive = ".text" ∨ directive = ".data" ∨ directive = ".bss" then
    let sec : Section :=
      if directive = ".text" then .text else if directive = ".data" then .data else .bss
    .ok ({ s with current_section := sec }).advance
  else if directive = ".org" then
    parse_org s line
  else if directive = ".byte" ∨ directive = ".word" ∨ directive = ".string" ∨
          directive = ".ascii" ∨ directive = ".space" ∨ directive = ".fill" then
    if ¬(s.current_section = .data ∨ s.current_section = .bss) then
      .ok (s.addError (directive ++ " directive can only be used in the .data or .bss sections") line)
    else if directive = ".byte" then
      if ¬(s.peek.type = .IMMEDIATE ∨ s.peek.type = .CHARACTER) then
        .ok (s.addError ("Expected immediate or character value after " ++ directive ++ " directive") line)
      else
        (byteLoop line fuel s).map (dataListEpilogue directive)
    else if directive = ".word" then
      if ¬(s.peek.type = .IMMEDIATE ∨ s.peek.type = .CHARACTER) then
        .ok (s.addError ("Expected immediate or character value after " ++ directive ++ " directive") line)
      else
        (wordLoop line fuel s).map (dataListEpilogue directive)
    else if directive = ".string" ∨ directive = ".ascii" then
      parse_string_ascii directive s line
    else if directive = ".space" then
      parse_space s line
    else -- ".fill"
      parse_fill s line
  else
    .ok ((s.addError ("Unknown directive " ++ apos ++ directive ++ apos)
      s.current_token.line).advance)

/-- Sweep A of `ZX16FirstPassParser.execute`: collect `.equ`/`.set`
constants. -/
def sweepA : Nat → P1State → Except PExc P1State
  | 0, _ => .error .outOfFuel
  | fuel + 1, s =>
    if s.current_token.type = .EOF then .ok s
    else
      let step : Except PExc P1State :=
        if s.current_token.type = .DIRECTIVE ∧
           (s.current_token.value = ".equ" ∨ s.current_token.value = ".set") then
          parse_constant s
        else .ok s
      match step with
      | .error e => .error e
      | .ok s => sweepA fuel s.advance

/-- The consume-until-newline loop inside sweep B's identifier branch
(converting `CHARACTER` tokens to `IMMEDIATE` in place; the token object
is aliased between `current_token` and `tokens[pos]`, so both are
updated). -/
def consumeLine : Nat → P1State → Except PExc P1State
  | 0, _ => .error .outOfFuel
  | fuel + 1, s =>
    if s.current_token.type = .NEWLINE ∨ s.current_token.type = .EOF then .ok s
    else
      let s :=
        if s.current_token.type = .CHARACTER then
          let t := { s.current_token with type := TokenType.IMMEDIATE }
          { s with current_token := t, tokens := s.tokens.set s.pos t }
        else s
      consumeLine fuel s.advance

/-- Sweep B of `ZX16FirstPassParser.execute`: labels, instruction sizing
and directives. -/
def sweepB : Nat → P1State → Except PExc P1State
  | 0, _ => .error .outOfFuel
  | fuel + 1, s =>
    if s.current_token.type = .EOF then .ok s
    else
      let step : Except PExc P1State :=
        if s.current_token.type = .LABEL then .ok (parse_label s)
        else if s.current_token.type = .IDENTIFIER then
          let potential := pyLower s.current_token.value
          let s :=
            if (List.lookup potential INSTRUCTION_FORMAT).isSome then
              s.pointer_advance 2
            else
              match List.lookup potential PSEUDO_INSTRUCTIONS with
              | some size => s.pointer_advance size
              | none => s
          consumeLine fuel s
        else if s.current_token.type = .DIRECTIVE then parse_directive fuel s
        else .ok s
      match step with
      | .error e => .error e
      | .ok s =>
        let s :=
          if ¬(s.current_token.type = .NEWLINE ∨ s.current_token.type = .EOF) then
            s.addError ("Unexpected token " ++ apos ++ s.current_token.value ++ apos)
              s.current_token.line s.current_token.column
          else s
        sweepB fuel s.advance

/-- `ZX16FirstPassParser.calculate_memory_layout`. -/
def calculate_memory_layout (s : P1State) : P1State :=
  let layout := { s.memory_layout with
    data := s.section_pointers.text + CODE_START }
  let layout := { layout with bss := layout.data + s.section_pointers.data }
  { s with memory_layout := layout }

/-- `ZX16FirstPassParser.execute`: the whole first pass over a token
list. -/
def firstPassExecute (fuel : Nat) (tokens : List Token) : Except PExc P1State :=
  match sweepA fuel (P1State.init tokens) with
  | .error e => .error e
  | .ok s =>
    match sweepB fuel s.reset with
    | .error e => .error e
    | .ok s => .ok (calculate_memory_layout s)

/-! ## Second pass (`second_pass_encoder.py`) -/

/-- Decimal rendering of a nonnegative integer (`str()` on the digits). -/
def natStrAux : Nat → Nat → List Char
  | 0, _ => []
  | fuel + 1, n =>
    if n < 10 then [Char.ofNat (48 + n)]
    else natStrAux fuel (n / 10) ++ [Char.ofNat (48 + n % 10)]

/-- Python `str(i)` for an `int`. -/
def pyStr (i : Int) : String :=
  if i < 0 then String.mk ('-' :: natStrAux (i.natAbs + 1) i.natAbs)
  else String.mk (natStrAux (i.toNat + 1) i.toNat)

/-- Modelled from the spec: `decimal_to_binary` of the `utils` module is
imported by `second_pass_encoder.py` but absent from `src/`; per §4.3 it
encodes a value "to `width` bits using two's-complement masking".  The
binary string intermediate is represented by its numeric value. -/
def decimal_to_binary (value : Int) (width : Nat) : Nat :=
  (Int.emod value (2 ^ width)).toNat

/-- Modelled from the spec: `binary_to_decimal` of the missing `utils`
module; per §4.3 it decodes a `width`-bit two's-complement word "with the
field's `signed` flag". -/
def binary_to_decimal (n : Nat) (width : Nat) (signed : Bool) : Int :=
  if signed ∧ 2 ^ (width - 1) ≤ n then (n : Int) - 2 ^ width else (n : Int)

/-- `ImmediateField` width (from `definitions.py`'s `ImmediateField.__init__`:
sum of split-allocation widths, else `end - beginning + 1`). -/
def immWidth (p : Placeholder) : Nat :=
  if p.allocations = [] then p.«end» - p.beginning + 1
  else (p.allocations.map (fun a => a.i_end - a.i_beginning + 1)).sum

/-- `ImmediateField` lower bound: the signed default of
`definitions.py` (no table entry overrides bounds or signedness). -/
def immMin (p : Placeholder) : Int := -(2 ^ (immWidth p - 1))

/-- `ImmediateField` upper bound (signed default). -/
def immMax (p : Placeholder) : Int := 2 ^ (immWidth p - 1) - 1

/-- The 64 KiB `bytearray`, modelled as the chronological log of byte
assignments (newest first); unwritten cells read as the initial 0. -/
abbrev Mem := List (Nat × Nat)

/-- `bytearray.__setitem__`: raises `IndexError` at or beyond index
65536. -/
def bytearraySet (m : Mem) (i v : Nat) : Option Mem :=
  if i < MEM_SIZE then some ((i, v) :: m) else none

/-- Read back a byte of the image. -/
def readMem (m : Mem) (i : Nat) : Nat :=
  match m.find? (fun p => p.1 == i) with
  | some p => p.2
  | none => 0

/-- The mutable state of `ZX16SecondPassEncoder` (minus the token list,
which the per-line functions receive explicitly).  The class defines no
`current_token` attribute; see `encodeWordOperands`. -/
structure P2State where
  current_section : Section
  section_pointers : SectionPtrs
  memory : Mem
  errors : List AssemblerMessage
  deriving DecidableEq, Repr

/-- `ZX16SecondPassEncoder.__init__`: write cursors are seeded from the
first pass's memory layout; `current_section` defaults to `.text`. -/
def P2State.init (layout : SectionPtrs) : P2State :=
  { current_section := .text
    section_pointers := layout
    memory := []
    errors := [] }

/-- `Zx16Errors.add_error` as seen from the second pass. -/
def P2State.addError (s : P2State) (msg : String) (line : Nat) (col : Nat := 0) :
    P2State :=
  { s with errors := s.errors ++ [{ message := msg, line := line, column := col }] }

/-- `ZX16SecondPassEncoder.write_memory`: little-endian write of `size`
bytes at the current section's pointer, advancing it by `size`; an
address outside the image is only a diagnostic, but an in-range start
whose later bytes run past index 65535 raises `IndexError`. -/
def write_memory (s : P2State) (value : Int) (size : Int) : Except PExc P2State :=
  let address := s.section_pointers.get s.current_section
  if 0 ≤ address ∧ address < (MEM_SIZE : Int) then
    let a := address.toNat
    let advanced : Mem → P2State := fun m =>
      { s with memory := m
               section_pointers :=
                 s.section_pointers.set s.current_section (address + size) }
    if size = 1 then
      match bytearraySet s.memory a (Int.emod value 256).toNat with
      | none => .error .indexError
      | some m => .ok (advanced m)
    else
      match bytearraySet s.memory a (Int.emod value 256).toNat with
      | none => .error .indexError
      | some m =>
        let hi := (Int.emod (pyShr value 8) 256).toNat
        let step : Option Mem → Nat → Option Mem := fun acc i =>
          match acc with
          | none => none
          | some m => bytearraySet m (a + i) hi
        match (List.range' 1 (size - 1).toNat).foldl step (some m) with
        | none => .error .indexError
        | some m => .ok (advanced m)
  else
    .ok (s.addError "Memory address out of bounds" 0 0)

/-- Stage 1 (`ZX16SecondPassEncoder.resolve_symbols`) applied to one
token. -/
def resolveToken (symtab : List (String × Symbol)) (ptrs : SectionPtrs)
    (tok : Token) : Token × List AssemblerMessage :=
  if tok.type ≠ .IDENTIFIER then (tok, [])
  else if (List.lookup (pyLower tok.value) INSTRUCTION_FORMAT).isSome ∨
          (List.lookup (pyLower tok.value) PSEUDO_INSTRUCTIONS).isSome then (tok, [])
  else
    match List.lookup tok.value symtab with
    | some symbol =>
      match symbol.«section» with
      | .const => ({ tok with type := .IMMEDIATE, value := pyStr symbol.value }, [])
      | .sec sec =>
        ({ tok with type := .IMMEDIATE, was_label := true
                    value := pyStr (symbol.value + ptrs.get sec) }, [])
    | none =>
      ({ tok with type := .IMMEDIATE, value := "0" },
       [{ message := "Undefined symbol: " ++ tok.value
          line := tok.line, column := tok.column }])

/-- Stage 1 over a whole token list. -/
def resolve_symbols (symtab : List (String × Symbol)) (ptrs : SectionPtrs)
    (tokens : List Token) : List Token × List AssemblerMessage :=
  tokens.foldl (fun acc tok =>
    let r := resolveToken symtab ptrs tok
    (acc.1 ++ [r.1], acc.2 ++ r.2)) ([], [])

/-- `ZX16SecondPassEncoder.resolve_pseudo_instructions`, returning the
line(s) that replace the pseudo-instruction line (the source writes them
into `self.lines`).  `li16` and `la` parse their operand with a bare
`int(...)` call (no base auto-detection), which raises `ValueError` on
prefixed literals. -/
def resolve_pseudo_instructions (line : List Token) :
    Except PExc (List (List Token)) :=
  match line.head? with
  | none => .error .indexError
  | some tok0 =>
    let instruction := pyLower tok0.value
    let l := tok0.line
    let c := tok0.column
    let mk : TokenType → String → Token := fun ty v =>
      { type := ty, value := v, line := l, column := c }
    if instruction = "li16" then
      match line.get? 1, line.get? 3 with
      | some regTok, some immTok =>
        match pyIntBase10 immTok.value with
        | none => .error .valueError
        | some value =>
          .ok [[mk .IDENTIFIER "lui", mk .REGISTER regTok.value, mk .COMMA ",",
                mk .IMMEDIATE (pyStr (pyShr value 7))],
               [mk .IDENTIFIER "ori", mk .REGISTER regTok.value, mk .COMMA ",",
                mk .IMMEDIATE (pyStr (Int.emod value 128))]]
      | _, _ => .error .indexError
    else if instruction = "la" then
      match line.get? 1, line.get? 3 with
      | some regTok, some immTok =>
        match pyIntBase10 immTok.value with
        | none => .error .valueError
        | some label =>
          .ok [[mk .IDENTIFIER "auipc", mk .REGISTER regTok.value, mk .COMMA ",",
                mk .IMMEDIATE (pyStr (pyShr label 7))],
               [mk .IDENTIFIER "addi", mk .REGISTER regTok.value, mk .COMMA ",",
                mk .IMMEDIATE (pyStr (Int.emod label 128))]]
      | _, _ => .error .indexError
    else if instruction = "push" then
      match line.get? 1 with
      | some regTok =>
        .ok [[mk .IDENTIFIER "addi", mk .REGISTER "x2", mk .COMMA ",",
              mk .IMMEDIATE "-2"],
             [mk .IDENTIFIER "sw", mk .REGISTER regTok.value, mk .COMMA ",",
              mk .IMMEDIATE "0", mk .LPAREN "(", mk .REGISTER "x2", mk .RPAREN ")"]]
      | none => .error .indexError
    else if instruction = "pop" then
      match line.get? 1 with
      | some regTok =>
        .ok [[mk .IDENTIFIER "lw", mk .REGISTER regTok.value, mk .COMMA ",",
              mk .IMMEDIATE "0", mk .LPAREN "(", mk .REGISTER "x2", mk .RPAREN ")"],
             [mk .IDENTIFIER "addi", mk .REGISTER "x2", mk .COMMA ",",
              mk .IMMEDIATE "2"]]
      | none => .error .indexError
    else if instruction = "call" then
      match line.get? 1 with
      | some offTok =>
        .ok [[mk .IDENTIFIER "jal", mk .REGISTER "x1", mk .COMMA ",",
              { type := .IMMEDIATE, value := offTok.value, line := l, column := c
                was_label := true }]]
      | none => .error .indexError
    else if instruction = "ret" then
      .ok [[mk .IDENTIFIER "jr", mk .REGISTER "x1"]]
    else if instruction = "inc" then
      match line.get? 1 with
      | some regTok =>
        .ok [[mk .IDENTIFIER "addi", mk .REGISTER regTok.value, mk .COMMA ",",
              mk .IMMEDIATE "1"]]
      | none => .error .indexError
    else if instruction = "dec" then
      match line.get? 1 with
      | some regTok =>
        .ok [[mk .IDENTIFIER "addi", mk .REGISTER regTok.value, mk .COMMA ",",
              mk .IMMEDIATE "-1"]]
      | none => .error .indexError
    else if instruction = "neg" then
      match line.get? 1 with
      | some regTok =>
        .ok [[mk .IDENTIFIER "xori", mk .REGISTER regTok.value, mk .COMMA ",",
              mk .IMMEDIATE "-1"],
             [mk .IDENTIFIER "addi", mk .REGISTER regTok.value, mk .COMMA ",",
              mk .IMMEDIATE "1"]]
      | none => .error .indexError
    else if instruction = "not" then
      match line.get? 1 with
      | some regTok =>
        .ok [[mk .IDENTIFIER "xori", mk .REGISTER regTok.value, mk .COMMA ",",
              mk .IMMEDIATE "-1"]]
      | none => .error .indexError
    else if instruction = "clr" then
      match line.get? 1 with
      | some regTok =>
        .ok [[mk .IDENTIFIER "xor", mk .REGISTER regTok.value, mk .COMMA ",",
              mk .REGISTER regTok.value]]
      | none => .error .indexError
    else if instruction = "nop" then
      .ok [[mk .IDENTIFIER "add", mk .REGISTER "x0", mk .COMMA ",",
            mk .REGISTER "x0"]]
    else .ok [line]

/-- The branch/jump mnemonic list of
`ZX16SecondPassEncoder.encode_instruction` (label resolution). -/
def branchMnemonics : List String :=
  ["jal", "j", "jr", "jalr", "beq", "bne", "bz", "bnz", "blt", "bge", "bltu", "bgeu"]

/-- The immediate-operand pipeline of `encode_instruction` (source lines
420-447): parse with base auto-detection, pass through the
two's-complement width round-trip, then—for label-derived operands of
branch/jump mnemonics—subtract the current section pointer and halve with
truncation (`int(imm / 2)`).  `none` is the caught `ValueError`. -/
def immediateValue (tokenValue : String) (wasLabel : Bool) (mnemonic : String)
    (width : Nat) (signed : Bool) (ptr : Int) : Option Int :=
  match pyIntBase0 tokenValue with
  | none => none
  | some v =>
    let imm := binary_to_decimal (decimal_to_binary v width) width signed
    if wasLabel ∧ mnemonic ∈ branchMnemonics then
      some (pyTruncDiv2 (imm - ptr))
    else some imm

/-- Step 1 of `encode_instruction`: OR the constants of every
`ConstantField` into the word. -/
def constWord (specs : List Placeholder) : Nat :=
  specs.foldl (fun w f =>
    match f.const_value with
    | some cv => w ||| (binVal cv <<< f.beginning)
    | none => w) 0

/-- Step 3's immediate placement: split allocations or the contiguous
mask-and-shift. -/
def encodeImmediate (word : Nat) (f : Placeholder) (imm : Int) : Nat :=
  if f.allocations ≠ [] then
    f.allocations.foldl (fun w alloc =>
      let width := alloc.i_end - alloc.i_beginning + 1
      let mask := ((1 <<< width) - 1) <<< alloc.i_beginning
      let piece := (pyAnd16 imm mask) >>> alloc.i_beginning
      w ||| (piece <<< alloc.m_beginning)) word
  else
    word ||| ((pyAnd16 imm ((1 <<< (f.«end» - f.beginning + 1)) - 1)) <<< f.beginning)

/-- Result of the field-walking loop of `encode_instruction`: an early
`return` after a diagnostic, or the finished word. -/
inductive FieldsOut where
  | errored (s : P2State)
  | done (s : P2State) (word : Nat)
  deriving DecidableEq, Repr

/-- Step 2 of `encode_instruction`: walk the fields in order, consuming
one token per non-constant field. -/
def processFields (mnemonic : String) (line : List Token) :
    List Placeholder → P2State → Nat → Nat → FieldsOut
  | [], s, _, word => .done s word
  | f :: rest, s, token_idx, word =>
    if f.const_value.isSome then processFields mnemonic line rest s token_idx word
    else
      match line.get? token_idx with
      | none =>
        let last := line.getLastD eofToken
        .errored (s.addError "Missing token for field" last.line last.column)
      | some token =>
        if f.expected_token = some .COMMA ∨ f.expected_token = some .LPAREN ∨
           f.expected_token = some .RPAREN then
          if some token.type ≠ f.expected_token then
            .errored (s.addError "Expected punctuation" token.line token.column)
          else processFields mnemonic line rest s (token_idx + 1) word
        else if f.expected_token = some .REGISTER then
          if token.type ≠ .REGISTER then
            .errored (s.addError ("Expected REGISTER for " ++ apos ++ mnemonic ++ apos)
              token.line token.column)
          else
            match token.value.data.get? 1 with
            | none =>
              .errored (s.addError
                ("Invalid register syntax " ++ apos ++ token.value ++ apos)
                token.line token.column)
            | some ch =>
              match digitVal ch with
              | none =>
                .errored (s.addError
                  ("Invalid register syntax " ++ apos ++ token.value ++ apos)
                  token.line token.column)
              | some reg_index =>
                if ¬(reg_index ≤ 7) then
                  .errored (s.addError "Register index out of range (0-7)"
                    token.line token.column)
                else
                  processFields mnemonic line rest s (token_idx + 1)
                    (word ||| (reg_index <<< f.beginning))
        else if f.expected_token = some .IMMEDIATE then
          if token.type ≠ .IMMEDIATE then
            .errored (s.addError ("Expected IMMEDIATE for " ++ apos ++ mnemonic ++ apos)
              token.line token.column)
          else
            match immediateValue token.value token.was_label mnemonic (immWidth f)
                true (s.section_pointers.get s.current_section) with
            | none =>
              .errored (s.addError
                ("Invalid immediate " ++ apos ++ token.value ++ apos)
                token.line token.column)
            | some imm =>
              if ¬(immMin f ≤ imm ∧ imm ≤ immMax f) then
                if token.was_label then
                  .errored (s.addError "Label out of range" token.line token.column)
                else
                  .errored (s.addError "Immediate out of range" token.line token.column)
              else
                processFields mnemonic line rest s (token_idx + 1)
                  (encodeImmediate word f imm)
        else
          .errored (s.addError ("Unhandled field type in " ++ apos ++ mnemonic ++ apos)
            token.line token.column)

/-- `ZX16SecondPassEncoder.encode_instruction`. -/
def encode_instruction (s : P2State) (line : List Token) : Except PExc P2State :=
  match line.head? with
  | none => .error .indexError
  | some tok0 =>
    let mnemonic := pyLower tok0.value
    match List.lookup mnemonic INSTRUCTION_FORMAT with
    | none =>
      .ok (s.addError ("Unknown instruction " ++ apos ++ mnemonic ++ apos)
        tok0.line tok0.column)
    | some specs =>
      match processFields mnemonic line specs s 1 (constWord specs) with
      | .errored s' => .ok s'
      | .done s' word => write_memory s' (word : Int) 2

/-- The `.byte` operand loop of `encode_directive` (values parsed with
base auto-detection, no range check in the second pass). -/
def encodeByteOperands (s : P2State) : List Token → Except PExc P2State
  | [] => .ok s
  | op :: rest =>
    if op.type = .COMMA then encodeByteOperands s rest
    else
      match pyIntBase0 op.value with
      | none => .error .valueError
      | some value =>
        match write_memory s value 1 with
        | .error e => .error e
        | .ok s' => encodeByteOperands s' rest

/-- The `.word` operand loop of `encode_directive`.  The source reads
`self.current_token.value`, but `ZX16SecondPassEncoder` never defines a
`current_token` attribute, so the first non-comma operand raises
`AttributeError`. -/
def encodeWordOperands (s : P2State) : List Token → Except PExc P2State
  | [] => .ok s
  | op :: rest =>
    if op.type = .COMMA then encodeWordOperands s rest
    else .error .attributeError

/-- Byte-at-a-time emission of a string payload (`.string`/`.ascii`). -/
def encodeStringChars (s : P2State) : List Char → Except PExc P2State
  | [] => .ok s
  | ch :: rest =>
    match write_memory s (ch.toNat : Int) 1 with
    | .error e => .error e
    | .ok s' => encodeStringChars s' rest

/-- `n` repetitions of `write_memory value size` (the `.space` and
`.fill` loops). -/
def writeRepeat (s : P2State) (value : Int) (size : Int) : Nat → Except PExc P2State
  | 0 => .ok s
  | n + 1 =>
    match write_memory s value size with
    | .error e => .error e
    | .ok s' => writeRepeat s' value size n

/-- `ZX16SecondPassEncoder.encode_directive`. -/
def encode_directive (s : P2State) (line : List Token) : Except PExc P2State :=
  match line.head? with
  | none => .error .indexError
  | some tok0 =>
    let directive := pyLower tok0.value
    if directive = ".text" then .ok { s with current_section := .text }
    else if directive = ".data" then .ok { s with current_section := .data }
    else if directive = ".bss" then .ok { s with current_section := .bss }
    else if directive = ".org" then
      match line.get? 1 with
      | none => .error .indexError
      | some vTok =>
        match pyIntBase0 vTok.value with
        | none => .error .valueError
        | some value =>
          if value < 0 ∨ value ≥ (MEM_SIZE : Int) then
            .ok (s.addError "ORG value out of bounds (0-65535)" vTok.line vTok.column)
          else if value < CODE_START then
            .ok { s with current_section := .inter
                         section_pointers := s.section_pointers.set .inter value }
          else if value < MMIO_BASE then
            .ok { s with current_section := .text
                         section_pointers := s.section_pointers.set .text value }
          else
            .ok (s.addError "ORG value cannot be in MMIO range" vTok.line vTok.column)
    else if directive = ".byte" then encodeByteOperands s (line.drop 1)
    else if directive = ".word" then encodeWordOperands s (line.drop 1)
    else if directive = ".string" ∨ directive = ".ascii" then
      match line.get? 1 with
      | none => .error .indexError
      | some strTok =>
        match encodeStringChars s strTok.value.data with
        | .error e => .error e
        | .ok s' =>
          if directive = ".string" then write_memory s' 0 1 else .ok s'
    else if directive = ".space" then
      match line.get? 1 with
      | none => .error .indexError
      | some nTok =>
        match pyIntBase10 nTok.value with
        | none => .error .valueError
        | some n => writeRepeat s 0 1 n.toNat
    else if directive = ".fill" then
      match line.get? 1, line.get? 3, line.get? 5 with
      | some itemsTok, some sizeTok, some valueTok =>
        match pyIntBase0 itemsTok.value, pyIntBase0 sizeTok.value,
              pyIntBase0 valueTok.value with
        | some fill_items, some fill_size, some fill_value =>
          writeRepeat s fill_value fill_size (fill_items.toNat * fill_size.toNat)
        | _, _, _ => .error .valueError
      | _, _, _ => .error .indexError
    else .ok s

/-! ## Concrete inputs used by the theorems -/

/-- Shorthand token constructor for concrete streams. -/
def tk (ty : TokenType) (v : String) (l : Nat) (c : Nat := 1) : Token :=
  { type := ty, value := v, line := l, column := c }

/-- A second-pass state whose `.text` cursor sits at `0x0020`
(`CODE_START`), as produced by a first pass with empty sections. -/
def p2text20 : P2State :=
  P2State.init { inter := 0, text := 0x20, data := 0x40, bss := 0x50 }

/-- The same state switched to the `.data` section (cursor `0x40`). -/
def p2data : P2State := { p2text20 with current_section := .data }

/-- A second-pass state whose `.text` cursor sits at the last byte of the
image. -/
def p2last : P2State :=
  { p2text20 with
    section_pointers := { inter := 0, text := 65535, data := 0, bss := 0 } }

/-- Token stream of `.equ FOO, 1` / `.equ FOO, 2`. -/
def dupEquToks : List Token :=
  [tk .DIRECTIVE ".equ" 1, tk .IDENTIFIER "FOO" 1, tk .COMMA "," 1,
   tk .IMMEDIATE "1" 1, tk .NEWLINE "" 1,
   tk .DIRECTIVE ".equ" 2, tk .IDENTIFIER "FOO" 2, tk .COMMA "," 2,
   tk .IMMEDIATE "2" 2, tk .NEWLINE "" 2, tk .EOF "" 3]

/-- Token stream of `.data` / `.space -4`. -/
def spaceNegToks : List Token :=
  [tk .DIRECTIVE ".data" 1, tk .NEWLINE "" 1,
   tk .DIRECTIVE ".space" 2, tk .IMMEDIATE "-4" 2, tk .NEWLINE "" 2, tk .EOF "" 3]

/-- Instruction line `add x1, x2`. -/
def addLine : List Token :=
  [tk .IDENTIFIER "add" 1, tk .REGISTER "x1" 1, tk .COMMA "," 1,
   tk .REGISTER "x2" 1]

/-- Pseudo-instruction line `li16 x4, 0x1234`. -/
def li16HexLine : List Token :=
  [tk .IDENTIFIER "li16" 1, tk .REGISTER "x4" 1, tk .COMMA "," 1,
   tk .IMMEDIATE "0x1234" 1]

/-- Pseudo-instruction line `li16 x4, 4660` (the decimal spelling of
`0x1234`). -/
def li16DecLine : List Token :=
  [tk .IDENTIFIER "li16" 1, tk .REGISTER "x4" 1, tk .COMMA "," 1,
   tk .IMMEDIATE "4660" 1]

/-- The `lui x4, 36` line that `li16 x4, 4660` expands to
(`4660 >> 7 = 36 = 0x24`). -/
def luiLine : List Token :=
  [tk .IDENTIFIER "lui" 1, tk .REGISTER "x4" 1, tk .COMMA "," 1,
   tk .IMMEDIATE "36" 1]

/-- The `ori x4, 52` line that `li16 x4, 4660` inserts
(`4660 & 0x7F = 52 = 0x34`). -/
def oriLine : List Token :=
  [tk .IDENTIFIER "ori" 1, tk .REGISTER "x4" 1, tk .COMMA "," 1,
   tk .IMMEDIATE "52" 1]

/-- Instruction line `j label` after symbol resolution, for a label whose
absolute address is `0x0024 = 36`. -/
def jLine : List Token :=
  [tk .IDENTIFIER "j" 1,
   { type := .IMMEDIATE, value := "36", line := 1, column := 3, was_label := true }]

/-- Token stream of `.data` / `.space 4`: no `.org`, and its single
`.space` directive has the non-negative operand `4`. -/
def c6wToks : List Token :=
  [tk .DIRECTIVE ".data" 1, tk .NEWLINE "" 1,
   tk .DIRECTIVE ".space" 2, tk .IMMEDIATE "4" 2, tk .NEWLINE "" 2, tk .EOF "" 3]

/-- The state sweep B produces from `c6wToks`. -/
def c6wFinal : P1State :=
  match sweepB 60 (P1State.init c6wToks) with
  | .ok s => s
  | .error _ => P1State.init c6wToks

/-- Directive line `.word 5`. -/
def wordLine : List Token :=
  [tk .DIRECTIVE ".word" 1, tk .IMMEDIATE "5" 1]

/-- An unknown-mnemonic instruction line. -/
def unknownLine : List Token := [tk .IDENTIFIER "frobnicate" 1]

/-- The state `encode_instruction` produces for `unknownLine`. -/
def unknownResult : P2State :=
  p2text20.addError ("Unknown instruction " ++ apos ++ "frobnicate" ++ apos) 1 1

/-- The token stream of a single well-formed `.equ NAME, V` directive
followed by `Eof`. -/
def equStream (name vstr : String) (tv : TokenType) : List Token :=
  [tk .DIRECTIVE ".equ" 1 1, tk .IDENTIFIER name 1 2, tk .COMMA "," 1 3,
   { type := tv, value := vstr, line := 1, column := 4 }, tk .EOF "" 1 5]

/-- A token that is not an `.org` directive (by value,
case-insensitively, as `parse_directive` lowercases). -/
@[reducible] def GoodTok (t : Token) : Prop :=
  pyLower t.value ≠ ".org"

/-- The C6 side condition on an adjacent token pair: if the first token
is a `.space` directive (by value), then any successful base-10 parse of
the second token's value — the number `parse_space` hands to
`pointer_advance` when the second token is the directive's operand — is
non-negative. -/
@[reducible] def SpaceSafePair (t u : Token) : Prop :=
  pyLower t.value = ".space" → ∀ n, pyIntBase10 u.value = some n → 0 ≤ n

/-- `true` iff every successful base-10 parse of `v` is non-negative. -/
def nonnegLiteral (v : String) : Bool :=
  match pyIntBase10 v with
  | some n => decide (0 ≤ n)
  | none => true

/-- The C6 invariant on a first-pass state: no token in the stream or
under the cursor is an `.org` directive; the cursor aliasing the Python
parser maintains (a current token that is not a synthesised `EOF` sits in
the list at index `pos`); and every adjacent token pair at or after the
cursor satisfies `SpaceSafePair`, i.e. no `.space` directive still to be
processed carries a negative operand.  Streams whose `.space` directives
all have non-negative (or unparsable) operands are included. -/
def GoodP1 (s : P1State) : Prop :=
  (∀ t ∈ s.tokens, GoodTok t) ∧ GoodTok s.current_token ∧
  (s.current_token.type ≠ .EOF → s.tokens.get? s.pos = some s.current_token) ∧
  (∀ i, s.pos ≤ i → ∀ t u, s.tokens.get? i = some t →
    s.tokens.get? (i + 1) = some u → SpaceSafePair t u)

/-- The state carried by either outcome of a `.byte`/`.word` operand
loop. -/
def DirFlow.state : DirFlow → P1State
  | .fallthrough s => s
  | .ret s => s

/-- One first-pass step is sound for claim C6: section pointers do not
decrease, and the `GoodP1` invariant is preserved. -/
def StepOK (s s' : P1State) : Prop :=
  s.section_pointers.le s'.section_pointers ∧ (GoodP1 s → GoodP1 s')

/-- The invariant of `encode_instruction`'s field walk relative to its
entry state: an early diagnostic return leaves memory and pointers
untouched and appends exactly one message; a completed walk leaves the
state untouched entirely. -/
def FieldsOutOK (s : P2State) : FieldsOut → Prop
  | .errored s' =>
    s'.memory = s.memory ∧ s'.section_pointers = s.section_pointers ∧
      ∃ e, s'.errors = s.errors ++ [e]
  | .done s' _ => s' = s

/-! ## Theorems -/

/-- C1: the `.word` branch of `encode_directive` reads
`self.current_token.value`, an attribute `ZX16SecondPassEncoder` never
defines, so encoding `.word 5` in the second pass raises `AttributeError`
before any byte is written — instead of writing the operand's two
little-endian bytes and advancing the pointer by 2 as the claim states. -/
theorem c1_word_directive_attribute_error :
    encode_directive p2data wordLine = .error .attributeError := by decide

/-- C2 counterexample: for the mnemonic `jal` of the instruction table,
word bit 3 lies in two field ranges (the `rd` register field `3..5` and
the first split-immediate allocation `3..5`) and word bit 6 lies in none,
so the claimed pairwise disjointness and exact coverage of bits 0..15
both fail. -/
theorem c2_counterexample :
    (List.lookup "jal" INSTRUCTION_FORMAT).isSome = true ∧
    coverCount (fieldsOf "jal") 3 = 2 ∧
    coverCount (fieldsOf "jal") 6 = 0 := by decide

/-- C2 amended: every mnemonic except `jal` has pairwise-disjoint field
bit ranges, and the ranges cover bits 0..15 exactly once for every
mnemonic except `j`, `jal`, `bz`, `bnz` and `ecall`; for those, `jal`
overlaps at bits 3-5 and leaves 6-8 uncovered, `j` leaves 6-8 uncovered,
`bz`/`bnz` leave 9-11 uncovered, and `ecall` leaves 3-5 uncovered. -/
theorem c2_amended :
    (INSTRUCTION_FORMAT.all (fun pr =>
      if pr.1 = "jal" then true else noOverlap pr.2)) = true ∧
    (INSTRUCTION_FORMAT.all (fun pr =>
      if pr.1 = "j" ∨ pr.1 = "jal" ∨ pr.1 = "bz" ∨ pr.1 = "bnz" ∨ pr.1 = "ecall"
      then true else exactCover pr.2)) = true ∧
    ((List.range 16).filter (fun b => coverCount (fieldsOf "j") b = 0)
      = [6, 7, 8]) ∧
    ((List.range 16).filter (fun b => coverCount (fieldsOf "jal") b = 0)
      = [6, 7, 8]) ∧
    ((List.range 16).filter (fun b => coverCount (fieldsOf "jal") b = 2)
      = [3, 4, 5]) ∧
    ((List.range 16).filter (fun b => coverCount (fieldsOf "bz") b = 0)
      = [9, 10, 11]) ∧
    ((List.range 16).filter (fun b => coverCount (fieldsOf "bnz") b = 0)
      = [9, 10, 11]) ∧
    ((List.range 16).filter (fun b => coverCount (fieldsOf "ecall") b = 0)
      = [3, 4, 5]) := by decide

/-- C4: the claim is right about the intended expansion and the code is
wrong on non-decimal immediates: `li16` parses its immediate with a bare
`int(...)` (base 10), so `li16 x4, 0x1234` raises `ValueError` even
though the lexer's base auto-detection accepts `0x1234` (as 4660); with
the decimal spelling the replacement lines are exactly
`lui x4, (imm >> 7) = 36 = 0x24` and `ori x4, (imm & 0x7F) = 52 = 0x34`,
and both encode without any diagnostic. -/
theorem c4_li16_expansion :
    pyIntBase0 "0x1234" = some 4660 ∧
    resolve_pseudo_instructions li16HexLine = .error .valueError ∧
    resolve_pseudo_instructions li16DecLine = .ok [luiLine, oriLine] ∧
    (encode_instruction p2text20 luiLine).map (fun s => s.errors) = .ok [] ∧
    (encode_instruction p2text20 oriLine).map (fun s => s.errors) = .ok [] := by
  decide

/-- C5 counterexample: `add x1, x2` does not encode to `0x4080`; the
bytes the encoder emits at the cursor are `0x40 0x04`, i.e. the word
`0x0440`, while `0x4080` would emit `0x80 0x40`. -/
theorem c5_counterexample :
    (encode_instruction p2text20 addLine).map
      (fun s => (readMem s.memory 0x20, readMem s.memory 0x21)) =
      .ok (0x40, 0x04) ∧
    ((0x40, 0x04) : Nat × Nat) ≠ (0x80, 0x40) := by decide

/-- C5 amended: encoding `add x1, x2` produces the 16-bit word `0x0440`
(opcode `000` in bits 0-2, funct3 `000` in bits 3-5, rd=1 in bits 6-8,
rs2=2 in bits 9-11, funct4 `0000` in bits 12-15 — so `0x0440 =
(1 <<< 6) ||| (2 <<< 9)`), emitted as the little-endian bytes
`0x40 0x04` with the cursor advanced by 2 and no diagnostics. -/
theorem c5_amended :
    (encode_instruction p2text20 addLine).map
      (fun s => (readMem s.memory 0x20, readMem s.memory 0x21,
                 s.section_pointers.text, s.errors)) =
      .ok (0x40, 0x04, 0x22, []) ∧
    0x40 + 256 * 0x04 = ((1 <<< 6) ||| (2 <<< 9) : Nat) := by decide

/-- C6 counterexample: the first pass over `.data` / `.space -4` moves
the `.data` location counter from its initial 0 down to -4 without any
`.org` directive, so a data directive can advance the counter by a
negative amount. -/
theorem c6_counterexample :
    (P1State.init spaceNegToks).section_pointers.data = 0 ∧
    (firstPassExecute 60 spaceNegToks).map (fun s => s.section_pointers.data) =
      .ok (-4) ∧
    ((-4 : Int) < 0) ∧
    (∀ t ∈ spaceNegToks, t.value ≠ ".org") := by decide

/-- C7: running the first pass over `.equ FOO, 1` / `.equ FOO, 2` adds
exactly one diagnostic, `Symbol 'FOO' already defined`, for the second
definition (line 2); the error list is non-empty, `has_errors()` is true
and the assembly does not succeed. -/
theorem c7_duplicate_equ :
    (firstPassExecute 60 dupEquToks).map
      (fun s => (s.errors, has_errors s.errors, assemblySucceeds s.errors)) =
      .ok ([{ message := "Symbol " ++ apos ++ "FOO" ++ apos ++ " already defined"
              line := 2, column := 0 }],
           true, false) := by decide

/-- C3 counterexample: a `jal` to a label resolved to absolute address
300 while the section cursor is 32 range-checks and encodes the value
-122, not `(300 - 32) / 2 = 134`: the resolved address is first wrapped
through the 9-bit two's-complement round-trip (300 becomes -212) before
the cursor is subtracted.  (Field 3 of `jal`'s table entry is its
split immediate of width 9.) -/
theorem c3_counterexample :
    immWidth ((fieldsOf "jal").getD 3 {}) = 9 ∧
    ((fieldsOf "jal").getD 3 {}).expected_token = some .IMMEDIATE ∧
    immediateValue "300" true "jal" 9 true 32 = some (-122) ∧
    pyTruncDiv2 (300 - 32) = 134 ∧
    ((-122 : Int) ≠ 134) := by decide

/-- Arithmetic core of the width round-trip: a value reduced mod `2k`
into `[0, 2k)` and sign-adjusted at `k` equals the balanced remainder. -/
theorem bmodAux (k : Nat) (M r : Int) (hM : M = 2 * (k : Int)) (h1 : 0 ≤ r)
    (h2 : r < M) :
    (if k ≤ r.toNat then (r.toNat : Int) - M else (r.toNat : Int)) =
    (if r < (M + 1) / 2 then r else r - M) := by
  subst hM; split_ifs <;> omega

/-- The signed two's-complement round-trip of the encoder equals the
balanced remainder `Int.bmod` at modulus `2^w`. -/
theorem roundTrip_eq_bmod (A : Int) (w : Nat) (hw : 1 ≤ w) :
    binary_to_decimal (decimal_to_binary A w) w true = Int.bmod A (2 ^ w) := by
  have hpos : (0 : Int) < 2 ^ w := by positivity
  unfold binary_to_decimal decimal_to_binary
  rw [Int.bmod_def]
  simp only [true_and]
  have hm : ((2 ^ w : Nat) : Int) = (2 : Int) ^ w := by push_cast; ring
  rw [hm]
  have hM : (2 : Int) ^ w = 2 * ((2 ^ (w - 1) : Nat) : Int) := by
    push_cast
    conv_lhs => rw [show w = w - 1 + 1 from by omega]
    ring
  exact bmodAux (2 ^ (w - 1)) ((2 : Int) ^ w) (A % 2 ^ w) hM
    (Int.emod_nonneg A (by omega)) (Int.emod_lt_of_pos A hpos)

/-- C3 amended: for a label-derived immediate of a branch/jump mnemonic,
the value that is range-checked and encoded is
`(bmod(A, 2^w) - pointer) / 2` with truncation toward zero, where `A` is
the resolved absolute address and `w` the field's width — i.e. the
address is first wrapped through the `w`-bit two's-complement round-trip
before the section pointer is subtracted, which matches
`(A - pointer) / 2` only when `A` itself fits the signed `w`-bit range.
In particular the spec's scenario holds: `j` placed at `0x0020` to a
label at `0x0024` (resolved address 36, 9-bit field) range-checks and
encodes offset 2, producing word `0x000D` with no diagnostics. -/
theorem c3_amended :
    (∀ (tokval : String) (A ptr : Int) (m : String) (w : Nat),
        pyIntBase0 tokval = some A → m ∈ branchMnemonics → 1 ≤ w →
        immediateValue tokval true m w true ptr =
          some (pyTruncDiv2 (Int.bmod A (2 ^ w) - ptr))) ∧
    immediateValue "36" true "j" 9 true 32 = some 2 ∧
    (encode_instruction p2text20 jLine).map
      (fun s => (readMem s.memory 0x20, readMem s.memory 0x21,
                 s.section_pointers.text, s.errors)) = .ok (0x0D, 0x00, 0x22, []) := by
  refine ⟨?_, by decide, by decide⟩
  intro tokval A ptr m w hA hm hw
  simp only [immediateValue, hA]
  rw [if_pos ⟨trivial, hm⟩, roundTrip_eq_bmod A w hw]

/-- C3 witness: the amended formula evaluated at address 300, pointer 32,
mnemonic `jal`, width 9. -/
theorem c3_amended_witness :
    immediateValue "300" true "jal" 9 true 32 =
      some (pyTruncDiv2 (Int.bmod 300 (2 ^ 9) - 32)) :=
  c3_amended.1 "300" 300 32 "jal" 9 (by decide) (by decide) (by decide)

/-- C8: the first pass over a well-formed `.equ NAME, V` directive (value
token of kind Immediate or Character, value text parsing under base
auto-detection to `v`) defines `NAME` as a `const` symbol of value `v`
and removes all four participating tokens from the returned stream,
leaving only the `Eof` token. -/
theorem c8_equ_defines_and_removes (name vstr : String) (tv : TokenType) (v : Int)
    (hv : pyIntBase0 vstr = some v)
    (ht : tv = .IMMEDIATE ∨ tv = .CHARACTER) :
    (firstPassExecute 20 (equStream name vstr tv)).map
      (fun s => (List.lookup name s.symbol_table, s.tokens)) =
      .ok (some { name := name, value := v, «section» := .const, defined := true
                  global_symbol := false, line := 1 }, [tk .EOF "" 1 5]) := by
  rcases ht with rfl | rfl <;>
    simp [firstPassExecute, equStream, P1State.init, sweepA, sweepB, parse_constant,
      P1State.advance, P1State.advance_and_delete, P1State.peek, P1State.reset,
      P1State.define_symbol, P1State.addError, dictSet, calculate_memory_layout, tk,
      eofToken, hv, List.lookup, Except.map, beq_self_eq_true]

/-- C8 witness: `.equ FOO, 0x10` defines `FOO = 16`. -/
theorem c8_witness :
    (firstPassExecute 20 (equStream "FOO" "0x10" .IMMEDIATE)).map
      (fun s => (List.lookup "FOO" s.symbol_table, s.tokens)) =
      .ok (some { name := "FOO", value := 16, «section» := .const, defined := true
                  global_symbol := false, line := 1 }, [tk .EOF "" 1 5]) :=
  c8_equ_defines_and_removes "FOO" "0x10" .IMMEDIATE 16 (by decide) (Or.inl rfl)

/-- The field walk of `encode_instruction` never touches memory or
section pointers: an early return appends exactly one diagnostic, and a
completed walk returns the entry state unchanged. -/
theorem processFields_ok (m : String) (line : List Token) :
    ∀ (specs : List Placeholder) (s : P2State) (i w : Nat),
      FieldsOutOK s (processFields m line specs s i w) := by
  intro specs
  induction specs with
  | nil => intro s i w; exact rfl
  | cons f rest ih =>
    intro s i w
    simp only [processFields]
    repeat' split
    all_goals first
      | exact ih _ _ _
      | exact ⟨rfl, rfl, _, rfl⟩

/-- A successful `write_memory` either only appended an out-of-bounds
diagnostic (memory and pointers untouched) or left the diagnostics
untouched. -/
theorem write_memory_ok (s : P2State) (v sz : Int) (s' : P2State)
    (h : write_memory s v sz = .ok s') :
    (s'.memory = s.memory ∧ s'.section_pointers = s.section_pointers ∧
      ∃ e, s'.errors = s.errors ++ [e]) ∨ s'.errors = s.errors := by
  simp only [write_memory] at h
  repeat' split at h
  all_goals simp only [Except.ok.injEq, reduceCtorEq] at h
  all_goals subst h
  · right; rfl
  · right; rfl
  · left; exact ⟨rfl, rfl, _, rfl⟩

/-- C9: second-pass instruction encoding is atomic per line: whenever a
successful `encode_instruction` call emitted any diagnostic, neither the
memory image nor the section pointers changed; and whenever it changed
the image or a pointer, it emitted no diagnostic. -/
theorem c9_instruction_encoding_atomic :
    ∀ (s : P2State) (line : List Token) (s' : P2State),
      encode_instruction s line = .ok s' →
      (s'.errors ≠ s.errors →
        s'.memory = s.memory ∧ s'.section_pointers = s.section_pointers) ∧
      ((s'.memory ≠ s.memory ∨ s'.section_pointers ≠ s.section_pointers) →
        s'.errors = s.errors) := by
  intro s line s' h
  simp only [encode_instruction] at h
  split at h
  · exact absurd h (by simp)
  rename_i tok0 htok
  split at h
  · simp only [Except.ok.injEq] at h
    subst h
    refine ⟨fun _ => ⟨rfl, rfl⟩, fun hc => ?_⟩
    rcases hc with hc | hc <;> exact absurd rfl hc
  rename_i specs hspec
  have hpf := processFields_ok (pyLower tok0.value) line specs s 1 (constWord specs)
  split at h
  · rename_i s₁ heq
    rw [heq] at hpf
    obtain ⟨hm, hp, e, he⟩ := hpf
    simp only [Except.ok.injEq] at h
    subst h
    refine ⟨fun _ => ⟨hm, hp⟩, fun hc => ?_⟩
    rcases hc with hc | hc
    · exact absurd hm hc
    · exact absurd hp hc
  · rename_i s₁ w heq
    rw [heq] at hpf
    have hs : s₁ = s := hpf
    subst hs
    rcases write_memory_ok s₁ _ 2 s' h with ⟨hm, hp, e, he⟩ | he
    · refine ⟨fun _ => ⟨hm, hp⟩, fun hc => ?_⟩
      rcases hc with hc | hc
      · exact absurd hm hc
      · exact absurd hp hc
    · exact ⟨fun hne => absurd he hne, fun _ => he⟩

/-- C9 witness: an unknown-mnemonic line at a concrete state emits a
diagnostic and leaves the image and pointers untouched. -/
theorem c9_witness :
    unknownResult.memory = p2text20.memory ∧
    unknownResult.section_pointers = p2text20.section_pointers :=
  (c9_instruction_encoding_atomic p2text20 unknownLine unknownResult
    (by decide)).1 (by decide)

/-- C10 counterexample: a 2-byte write whose starting address is 65535 —
inside `[0, 65536)`, so the claim demands a successful in-bounds write —
attempts to assign index 65536 of the `bytearray` and raises
`IndexError` instead. -/
theorem c10_counterexample :
    p2last.section_pointers.get p2last.current_section = 65535 ∧
    (0 : Int) ≤ 65535 ∧ (65535 : Int) < (MEM_SIZE : Int) ∧
    write_memory p2last 0xAB 2 = .error .indexError := by decide

/-- C10 amended: a memory-writer call of size 1 or 2 behaves as claimed —
out-of-range start address yields only a diagnostic with image and
pointer unchanged; in-range writes put the little-endian bytes at
`address..address+size-1` and advance the pointer by `size` — except
when `size = 2` and the start address is 65535: the second byte's index
65536 is out of bounds and the write raises `IndexError` (after the
bounds check only examined the start address). -/
theorem c10_amended :
    ∀ (s : P2State) (value : Int),
      ((s.section_pointers.get s.current_section < 0 ∨
        (MEM_SIZE : Int) ≤ s.section_pointers.get s.current_section) →
        ∀ sz : Int, write_memory s value sz =
          .ok (s.addError "Memory address out of bounds" 0 0)) ∧
      (∀ a : Int, a = s.section_pointers.get s.current_section → 0 ≤ a →
        a + 1 ≤ (MEM_SIZE : Int) →
        write_memory s value 1 = .ok
          { s with memory := (a.toNat, (Int.emod value 256).toNat) :: s.memory
                   section_pointers :=
                     s.section_pointers.set s.current_section (a + 1) }) ∧
      (∀ a : Int, a = s.section_pointers.get s.current_section → 0 ≤ a →
        a + 2 ≤ (MEM_SIZE : Int) →
        write_memory s value 2 = .ok
          { s with memory :=
                     (a.toNat + 1, (Int.emod (pyShr value 8) 256).toNat) ::
                     (a.toNat, (Int.emod value 256).toNat) :: s.memory
                   section_pointers :=
                     s.section_pointers.set s.current_section (a + 2) }) ∧
      ((s.section_pointers.get s.current_section = 65535) →
        write_memory s value 2 = .error .indexError) := by
  intro s value
  refine ⟨?_, ?_, ?_, ?_⟩
  · intro h sz
    simp only [write_memory, MEM_SIZE] at *
    rw [if_neg (by omega)]
  · intro a ha h0 h1
    subst ha
    simp only [MEM_SIZE] at h1
    simp only [write_memory, bytearraySet, MEM_SIZE]
    rw [if_pos ⟨h0, by omega⟩]
    norm_num
    rw [if_pos (by omega)]
  · intro a ha h0 h2
    subst ha
    simp only [MEM_SIZE] at h2
    simp only [write_memory, bytearraySet, MEM_SIZE]
    rw [if_pos ⟨h0, by omega⟩]
    norm_num
    rw [if_pos (by omega)]
    simp only [List.range', List.foldl]
    rw [if_pos (by omega)]
  · intro h
    simp only [write_memory, bytearraySet, MEM_SIZE]
    rw [h]
    norm_num [List.range']
    rw [if_neg (by decide)]

/-- C10 witness: the 2-byte in-range case at a concrete state —
`0x1234` written at `0x20` as bytes `0x34 0x12`, pointer advanced to
`0x22`. -/
theorem c10_witness :
    write_memory p2text20 0x1234 2 = .ok
      { p2text20 with
        memory := (33, 18) :: (32, 52) :: p2text20.memory
        section_pointers := p2text20.section_pointers.set .text 34 } :=
  (c10_amended p2text20 0x1234).2.2.1 32 (by decide) (by decide) (by decide)

/-! ### Monotonicity of the first pass (claim C6) -/

theorem SectionPtrs.le_refl (p : SectionPtrs) : p.le p := by
  unfold SectionPtrs.le; omega

theorem SectionPtrs.le_trans {p q r : SectionPtrs} (h1 : p.le q) (h2 : q.le r) :
    p.le r := by
  unfold SectionPtrs.le at *; omega

theorem StepOK.refl (s : P1State) : StepOK s s :=
  ⟨SectionPtrs.le_refl _, id⟩

theorem StepOK.trans {s t u : P1State} (h1 : StepOK s t) (h2 : StepOK t u) :
    StepOK s u :=
  ⟨SectionPtrs.le_trans h1.1 h2.1, fun h => h2.2 (h1.2 h)⟩

/-- A fallback-based list read is either a member or the fallback. -/
theorem getD_good {d : Token} :
    ∀ (l : List Token) (i : Nat), (∀ t ∈ l, GoodTok t) → GoodTok d →
      GoodTok (l.getD i d)
  | [], i, _, hd => by simpa [List.getD] using hd
  | a :: l, 0, hl, _ => by simpa [List.getD] using hl a (by simp)
  | a :: l, i + 1, hl, hd => by
    simpa [List.getD] using getD_good l i (fun t ht => hl t (by simp [ht])) hd

@[simp] theorem advance_ptrs (s : P1State) :
    s.advance.section_pointers = s.section_pointers := by
  unfold P1State.advance; split <;> rfl

@[simp] theorem advance_and_delete_ptrs (s : P1State) :
    s.advance_and_delete.section_pointers = s.section_pointers := by
  unfold P1State.advance_and_delete; split <;> rfl

@[simp] theorem define_symbol_ptrs (s : P1State) (n : String) (v : Int)
    (sec : SymbolSection) (line : Nat) (g : Bool) :
    (s.define_symbol n v sec line g).section_pointers = s.section_pointers := by
  unfold P1State.define_symbol P1State.addError
  repeat' split
  all_goals rfl

theorem goodTok_eof : GoodTok eofToken := by decide

/-- An in-bounds fallback read agrees with `get?`. -/
theorem get?_getD_of_lt (l : List Token) (i : Nat) (d : Token)
    (h : i < l.length) : l.get? i = some (l.getD i d) := by
  rw [List.getD_eq_getElem?_getD, List.get?_eq_getElem?]
  rcases hx : l[i]? with _ | x
  · rw [List.getElem?_eq_none_iff] at hx; omega
  · rfl

/-- Reading an erased list at or after the erased index skips one
position of the original list. -/
theorem get?_eraseIdx_of_le :
    ∀ (l : List Token) (i j : Nat), i ≤ j →
      (l.eraseIdx i).get? j = l.get? (j + 1)
  | [], _, _, _ => by simp [List.eraseIdx]
  | a :: tl, 0, j, _ => by simp [List.eraseIdx]
  | a :: tl, i + 1, 0, hij => by omega
  | a :: tl, i + 1, j + 1, hij => by
    simpa [List.eraseIdx] using
      get?_eraseIdx_of_le tl i j (Nat.le_of_succ_le_succ hij)

/-- A list-wide `nonnegLiteral` check gives the non-negativity fact of
each member, in the form `SpaceSafePair` consumes. -/
theorem allNonneg_of_all (l : List Token)
    (hb : l.all (fun u => nonnegLiteral u.value) = true) :
    ∀ u ∈ l, ∀ n, pyIntBase10 u.value = some n → 0 ≤ n := by
  intro u hu n hn
  have hx := List.all_eq_true.mp hb u hu
  unfold nonnegLiteral at hx
  rw [hn] at hx
  exact of_decide_eq_true hx

theorem stepOK_advance (s : P1State) : StepOK s s.advance := by
  refine ⟨by rw [advance_ptrs]; exact SectionPtrs.le_refl _, fun hG => ?_⟩
  obtain ⟨hl, hc, hal, hpair⟩ := hG
  unfold P1State.advance
  split
  · rename_i hlt
    have h3 : s.tokens.get? (s.pos + 1) =
        some (s.tokens.getD (s.pos + 1) eofToken) :=
      get?_getD_of_lt s.tokens (s.pos + 1) eofToken (by omega)
    have h4 : ∀ i, s.pos + 1 ≤ i → ∀ t u, s.tokens.get? i = some t →
        s.tokens.get? (i + 1) = some u → SpaceSafePair t u :=
      fun i hi => hpair i (by omega)
    exact ⟨hl, getD_good _ _ hl goodTok_eof, fun _ => h3, h4⟩
  · exact ⟨hl, hc, hal, hpair⟩

theorem stepOK_advance_and_delete (s : P1State) : StepOK s s.advance_and_delete := by
  refine ⟨by rw [advance_and_delete_ptrs]; exact SectionPtrs.le_refl _, fun hG => ?_⟩
  obtain ⟨hl, hc, hal, hpair⟩ := hG
  unfold P1State.advance_and_delete
  split
  · rename_i hlt
    have hl' : ∀ t ∈ s.tokens.eraseIdx s.pos, GoodTok t :=
      fun t ht => hl t ((s.tokens.eraseIdx_sublist s.pos).subset ht)
    have hlen := List.length_eraseIdx s.tokens s.pos
    rw [if_pos (by omega)] at hlen
    have hne : s.tokens.eraseIdx s.pos ≠ [] := by
      intro h0
      rw [h0] at hlen
      simp only [List.length_nil] at hlen
      omega
    have h3 : (s.tokens.eraseIdx s.pos).get? s.pos =
        some ((s.tokens.eraseIdx s.pos).getD s.pos eofToken) :=
      get?_getD_of_lt _ s.pos eofToken (by omega)
    have h4 : ∀ i, s.pos ≤ i → ∀ t u,
        (s.tokens.eraseIdx s.pos).get? i = some t →
        (s.tokens.eraseIdx s.pos).get? (i + 1) = some u → SpaceSafePair t u := by
      intro i hi t u ht hu
      rw [get?_eraseIdx_of_le s.tokens s.pos i hi] at ht
      rw [get?_eraseIdx_of_le s.tokens s.pos (i + 1) (by omega)] at hu
      exact hpair (i + 1) (by omega) t u ht hu
    dsimp only
    rw [if_neg hne]
    exact ⟨hl', getD_good _ _ hl' goodTok_eof, fun _ => h3, h4⟩
  · exact ⟨hl, goodTok_eof, fun he => absurd rfl he, hpair⟩

theorem stepOK_addError (s : P1State) (msg : String) (line col : Nat) :
    StepOK s (s.addError msg line col) :=
  ⟨SectionPtrs.le_refl _, fun h => h⟩

theorem stepOK_define_symbol (s : P1State) (n : String) (v : Int)
    (sec : SymbolSection) (line : Nat) (g : Bool) :
    StepOK s (s.define_symbol n v sec line g) := by
  refine ⟨by rw [define_symbol_ptrs]; exact SectionPtrs.le_refl _, fun hG => ?_⟩
  unfold P1State.define_symbol P1State.addError
  repeat' split
  all_goals exact hG

theorem stepOK_parse_label (s : P1State) : StepOK s (parse_label s) :=
  (stepOK_define_symbol s _ _ _ _ _).trans (stepOK_advance_and_delete _)

theorem ptr_advance_le (s : P1State) (size : Int) (sec : Option Section)
    (h : 0 ≤ size) :
    s.section_pointers.le (s.pointer_advance size sec).section_pointers := by
  unfold P1State.pointer_advance SectionPtrs.le
  cases h' : sec.getD s.current_section <;>
    cases hp : s.section_pointers <;>
      simp only [SectionPtrs.set, SectionPtrs.get] <;> omega

theorem stepOK_pointer_advance (s : P1State) (size : Int) (sec : Option Section)
    (h : 0 ≤ size) : StepOK s (s.pointer_advance size sec) :=
  ⟨ptr_advance_le s size sec h, fun g => g⟩

/-- The in-place `CHARACTER → IMMEDIATE` retype inside the identifier
line consumer preserves the C6 invariant: token values are untouched and
the cursor aliasing is maintained. -/
theorem stepOK_mutate (s : P1State) (hne : s.current_token.type ≠ .EOF) :
    StepOK s { s with
      current_token := { s.current_token with type := TokenType.IMMEDIATE }
      tokens := s.tokens.set s.pos
        { s.current_token with type := TokenType.IMMEDIATE } } := by
  refine ⟨SectionPtrs.le_refl _, fun ⟨hl, hc, hal, hpair⟩ => ?_⟩
  have hcur := hal hne
  have hlt : s.pos < s.tokens.length := by
    rcases Nat.lt_or_ge s.pos s.tokens.length with h | h
    · exact h
    · rw [List.get?_eq_none.mpr h] at hcur; cases hcur
  have hmem : ∀ t ∈ s.tokens.set s.pos
      { s.current_token with type := TokenType.IMMEDIATE }, GoodTok t := by
    intro t ht
    rcases List.mem_or_eq_of_mem_set ht with hm | heq
    · exact hl t hm
    · subst heq; exact hc
  have h3 : (s.tokens.set s.pos
        { s.current_token with type := TokenType.IMMEDIATE }).get? s.pos =
      some { s.current_token with type := TokenType.IMMEDIATE } := by
    rw [List.get?_eq_getElem?, List.getElem?_set_self hlt]
  have h4 : ∀ i, s.pos ≤ i → ∀ t u,
      (s.tokens.set s.pos
        { s.current_token with type := TokenType.IMMEDIATE }).get? i = some t →
      (s.tokens.set s.pos
        { s.current_token with type := TokenType.IMMEDIATE }).get? (i + 1) =
          some u →
      SpaceSafePair t u := by
    intro i hi t u ht hu
    by_cases hip : i = s.pos
    · subst hip
      rw [h3, Option.some.injEq] at ht
      rw [List.get?_eq_getElem?, List.getElem?_set_ne (by omega),
        ← List.get?_eq_getElem?] at hu
      intro hsp n hn
      refine hpair s.pos (Nat.le_refl _) s.current_token u hcur hu ?_ n hn
      rw [← ht] at hsp
      exact hsp
    · rw [List.get?_eq_getElem?,
        List.getElem?_set_ne (fun h => hip h.symm),
        ← List.get?_eq_getElem?] at ht
      rw [List.get?_eq_getElem?, List.getElem?_set_ne (by omega),
        ← List.get?_eq_getElem?] at hu
      exact hpair i hi t u ht hu
  exact ⟨hmem, hc, fun _ => h3, h4⟩

theorem stepOK_consumeLine :
    ∀ (fuel : Nat) (s s' : P1State), consumeLine fuel s = .ok s' → StepOK s s'
  | 0, _, _, h => by simp [consumeLine] at h
  | fuel + 1, s, s', h => by
    unfold consumeLine at h
    split at h
    · simp only [Except.ok.injEq] at h; subst h; exact StepOK.refl s
    · rename_i hguard
      split at h
      · exact (stepOK_mutate s (fun he => hguard (Or.inr he))).trans
          ((stepOK_advance _).trans (stepOK_consumeLine fuel _ s' h))
      · exact (stepOK_advance s).trans (stepOK_consumeLine fuel _ s' h)

theorem stepOK_byteLoop :
    ∀ (line fuel : Nat) (s : P1State) (r : DirFlow),
      byteLoop line fuel s = .ok r → StepOK s r.state
  | _, 0, _, _, h => by simp [byteLoop] at h
  | line, fuel + 1, s, r, h => by
    unfold byteLoop at h
    split at h
    · dsimp only at h
      split at h
      · exact absurd h (by simp)
      · split at h
        · simp only [Except.ok.injEq] at h; subst h
          exact (stepOK_advance s).trans (stepOK_addError _ _ _ _)
        · split at h
          · exact (stepOK_advance s).trans
              ((stepOK_pointer_advance _ 1 none (by norm_num)).trans
                ((stepOK_advance _).trans (stepOK_byteLoop line fuel _ r h)))
          · simp only [Except.ok.injEq] at h; subst h
            exact (stepOK_advance s).trans
              (stepOK_pointer_advance _ 1 none (by norm_num))
    · simp only [Except.ok.injEq] at h; subst h
      exact StepOK.refl s

theorem stepOK_wordLoop :
    ∀ (line fuel : Nat) (s : P1State) (r : DirFlow),
      wordLoop line fuel s = .ok r → StepOK s r.state
  | _, 0, _, _, h => by simp [wordLoop] at h
  | line, fuel + 1, s, r, h => by
    unfold wordLoop at h
    split at h
    · dsimp only at h
      split at h
      · exact absurd h (by simp)
      · split at h
        · simp only [Except.ok.injEq] at h; subst h
          exact (stepOK_advance s).trans (stepOK_addError _ _ _ _)
        · split at h
          · exact (stepOK_advance s).trans
              ((stepOK_pointer_advance _ 2 none (by norm_num)).trans
                ((stepOK_advance _).trans (stepOK_wordLoop line fuel _ r h)))
          · simp only [Except.ok.injEq] at h; subst h
            exact (stepOK_advance s).trans
              (stepOK_pointer_advance _ 2 none (by norm_num))
    · simp only [Except.ok.injEq] at h; subst h
      exact StepOK.refl s

theorem stepOK_epilogue (directive : String) (r : DirFlow) :
    StepOK r.state (dataListEpilogue directive r) := by
  cases r with
  | ret s => exact StepOK.refl s
  | fallthrough s =>
    unfold dataListEpilogue
    dsimp only [DirFlow.state]
    split
    · exact ((stepOK_addError _ _ _ _).trans (stepOK_advance _)).trans
        (stepOK_advance _)
    · exact stepOK_advance s

theorem lookup_snd_mem {k : String} {v : Int} :
    ∀ (l : List (String × Int)), List.lookup k l = some v → v ∈ l.map Prod.snd
  | [], h => by simp [List.lookup] at h
  | (a, b) :: l, h => by
    simp only [List.lookup] at h
    split at h
    · simp only [Option.some.injEq] at h; subst h; simp
    · simp only [List.map]; exact List.mem_cons_of_mem _ (lookup_snd_mem l h)

theorem pseudo_size_nonneg {k : String} {v : Int}
    (h : List.lookup k PSEUDO_INSTRUCTIONS = some v) : 0 ≤ v := by
  have hm := lookup_snd_mem PSEUDO_INSTRUCTIONS h
  simp [PSEUDO_INSTRUCTIONS] at hm
  omega

theorem stepOK_parse_string_ascii (directive : String) (s s' : P1State)
    (line : Nat) (h : parse_string_ascii directive s line = .ok s') :
    StepOK s s' := by
  unfold parse_string_ascii at h
  split at h
  · simp only [Except.ok.injEq] at h; subst h
    refine (stepOK_advance s).trans
      ((stepOK_pointer_advance _ _ none ?_).trans (stepOK_advance _))
    split_ifs <;> omega
  · simp only [Except.ok.injEq] at h; subst h
    exact stepOK_addError _ _ _ _

theorem stepOK_parse_fill (s s' : P1State) (line : Nat)
    (h : parse_fill s line = .ok s') : StepOK s s' := by
  unfold parse_fill at h
  split at h
  · simp only [Except.ok.injEq] at h; subst h
    exact stepOK_addError _ _ _ _
  try dsimp only at h
  split at h
  · exact absurd h (by simp)
  rename_i fill_items hItems
  split at h
  · simp only [Except.ok.injEq] at h; subst h
    exact (stepOK_advance s).trans (stepOK_addError _ _ _ _)
  split at h
  · simp only [Except.ok.injEq] at h; subst h
    exact (stepOK_advance s).trans (stepOK_addError _ _ _ _)
  try dsimp only at h
  split at h
  · simp only [Except.ok.injEq] at h; subst h
    exact ((stepOK_advance s).trans (stepOK_advance _)).trans
      (stepOK_addError _ _ _ _)
  try dsimp only at h
  split at h
  · exact absurd h (by simp)
  rename_i fill_size hSize
  split at h
  · simp only [Except.ok.injEq] at h; subst h
    exact (((stepOK_advance s).trans (stepOK_advance _)).trans
      (stepOK_advance _)).trans (stepOK_addError _ _ _ _)
  rename_i hsz
  split at h
  · simp only [Except.ok.injEq] at h; subst h
    exact (((stepOK_advance s).trans (stepOK_advance _)).trans
      (stepOK_advance _)).trans (stepOK_addError _ _ _ _)
  split at h
  · simp only [Except.ok.injEq] at h; subst h
    exact (((stepOK_advance s).trans (stepOK_advance _)).trans
      (stepOK_advance _)).trans (stepOK_addError _ _ _ _)
  try dsimp only at h
  split at h
  · simp only [Except.ok.injEq] at h; subst h
    exact ((((stepOK_advance s).trans (stepOK_advance _)).trans
      (stepOK_advance _)).trans (stepOK_advance _)).trans
      (stepOK_addError _ _ _ _)
  try dsimp only at h
  split at h
  · exact absurd h (by simp)
  simp only [Except.ok.injEq] at h; subst h
  refine (((((stepOK_advance s).trans (stepOK_advance _)).trans
    (stepOK_advance _)).trans (stepOK_advance _)).trans
    (stepOK_advance _)).trans
    ((stepOK_pointer_advance _ _ none ?_).trans (stepOK_advance _))
  have hsz' := not_not.mp hsz
  rcases hsz' with rfl | rfl <;> omega

/-- `parse_space` never decreases a section pointer when the operand it
feeds to `pointer_advance` is non-negative — which the `GoodP1` pair
condition guarantees for the immediate under `peek` when the cursor
holds a `.space` directive token. -/
theorem stepOK_parse_space (s s' : P1State) (line : Nat) (hG : GoodP1 s)
    (hty : s.current_token.type = .DIRECTIVE)
    (hsp : pyLower s.current_token.value = ".space")
    (h : parse_space s line = .ok s') : StepOK s s' := by
  unfold parse_space at h
  split at h
  · simp only [Except.ok.injEq] at h; subst h
    exact stepOK_addError _ _ _ _
  · rename_i hpk
    try dsimp only at h
    split at h
    · exact absurd h (by simp)
    · rename_i n hn
      simp only [Except.ok.injEq] at h; subst h
      obtain ⟨hl, hc, hal, hpair⟩ := hG
      have hcur := hal (by rw [hty]; decide)
      have hlt : s.pos + 1 < s.tokens.length := by
        by_contra hge
        have hpk' := not_not.mp hpk
        unfold P1State.peek at hpk'
        rw [if_neg hge] at hpk'
        exact TokenType.noConfusion hpk'
      have hop : s.tokens.get? (s.pos + 1) = some s.advance.current_token := by
        unfold P1State.advance
        rw [if_pos (by omega)]
        exact get?_getD_of_lt _ _ _ hlt
      refine (stepOK_advance s).trans
        ((stepOK_pointer_advance _ n none ?_).trans (stepOK_advance _))
      exact hpair s.pos (Nat.le_refl _) _ _ hcur hop hsp n hn

/-- A directive step of sweep B never decreases any section pointer (and
preserves the token invariant), given that the stream contains no `.org`
and no `.space` with a negative operand: `.org` is excluded by the
`GoodTok` clauses of `GoodP1` and `.space` goes through
`stepOK_parse_space` on the pair clause. -/
theorem stepOK_parse_directive (fuel : Nat) (s s' : P1State)
    (hG : GoodP1 s) (hty : s.current_token.type = .DIRECTIVE)
    (h : parse_directive fuel s = .ok s') :
    StepOK s s' := by
  have hno : pyLower s.current_token.value ≠ ".org" := hG.2.1
  unfold parse_directive at h
  dsimp only at h
  by_cases h1 : pyLower s.current_token.value = ".text" ∨
      pyLower s.current_token.value = ".data" ∨
      pyLower s.current_token.value = ".bss"
  · -- `.text` / `.data` / `.bss`
    rw [if_pos h1] at h
    simp only [Except.ok.injEq] at h; subst h
    exact StepOK.trans ⟨SectionPtrs.le_refl _, fun g => g⟩ (stepOK_advance _)
  rw [if_neg h1] at h
  rw [if_neg hno] at h
  by_cases h3 : pyLower s.current_token.value = ".byte" ∨
      pyLower s.current_token.value = ".word" ∨
      pyLower s.current_token.value = ".string" ∨
      pyLower s.current_token.value = ".ascii" ∨
      pyLower s.current_token.value = ".space" ∨
      pyLower s.current_token.value = ".fill"
  · -- data directives
    rw [if_pos h3] at h
    by_cases h4 : ¬(s.current_section = .data ∨ s.current_section = .bss)
    · rw [if_pos h4] at h
      simp only [Except.ok.injEq] at h; subst h
      exact stepOK_addError _ _ _ _
    rw [if_neg h4] at h
    by_cases h5 : pyLower s.current_token.value = ".byte"
    · -- `.byte`
      rw [if_pos h5] at h
      by_cases h6 : ¬(s.peek.type = .IMMEDIATE ∨ s.peek.type = .CHARACTER)
      · rw [if_pos h6] at h
        simp only [Except.ok.injEq] at h; subst h
        exact stepOK_addError _ _ _ _
      · rw [if_neg h6] at h
        cases hb : byteLoop s.current_token.line fuel s with
        | error e => rw [hb] at h; exact absurd h (by simp [Except.map])
        | ok r =>
          rw [hb] at h
          simp only [Except.map, Except.ok.injEq] at h
          subst h
          exact (stepOK_byteLoop _ fuel s r hb).trans (stepOK_epilogue _ r)
    rw [if_neg h5] at h
    by_cases h7 : pyLower s.current_token.value = ".word"
    · -- `.word`
      rw [if_pos h7] at h
      by_cases h8 : ¬(s.peek.type = .IMMEDIATE ∨ s.peek.type = .CHARACTER)
      · rw [if_pos h8] at h
        simp only [Except.ok.injEq] at h; subst h
        exact stepOK_addError _ _ _ _
      · rw [if_neg h8] at h
        cases hb : wordLoop s.current_token.line fuel s with
        | error e => rw [hb] at h; exact absurd h (by simp [Except.map])
        | ok r =>
          rw [hb] at h
          simp only [Except.map, Except.ok.injEq] at h
          subst h
          exact (stepOK_wordLoop _ fuel s r hb).trans (stepOK_epilogue _ r)
    rw [if_neg h7] at h
    by_cases h9 : pyLower s.current_token.value = ".string" ∨
        pyLower s.current_token.value = ".ascii"
    · rw [if_pos h9] at h
      exact stepOK_parse_string_ascii _ s s' _ h
    rw [if_neg h9] at h
    by_cases h10 : pyLower s.current_token.value = ".space"
    · rw [if_pos h10] at h
      exact stepOK_parse_space s s' _ hG hty h10 h
    · rw [if_neg h10] at h
      exact stepOK_parse_fill s s' _ h
  · -- unknown directive
    rw [if_neg h3] at h
    simp only [Except.ok.injEq] at h; subst h
    exact (stepOK_addError _ _ _ _).trans (stepOK_advance _)

theorem parse_constant_ptrs (s s' : P1State) (h : parse_constant s = .ok s') :
    s'.section_pointers = s.section_pointers := by
  unfold parse_constant at h
  split at h
  · simp only [Except.ok.injEq] at h; subst h
    simp [P1State.addError]
  try dsimp only at h
  split at h
  · simp only [Except.ok.injEq] at h; subst h
    simp [P1State.addError]
  try dsimp only at h
  split at h
  · simp only [Except.ok.injEq] at h; subst h
    simp [P1State.addError]
  try dsimp only at h
  split at h
  · exact absurd h (by simp)
  simp only [Except.ok.injEq] at h; subst h
  simp [P1State.addError]

theorem sweepA_ptrs :
    ∀ (fuel : Nat) (s s' : P1State), sweepA fuel s = .ok s' →
      s'.section_pointers = s.section_pointers
  | 0, _, _, h => by simp [sweepA] at h
  | fuel + 1, s, s', h => by
    unfold sweepA at h
    split at h
    · simp only [Except.ok.injEq] at h; subst h; rfl
    · dsimp only at h
      split at h
      · exact absurd h (by simp)
      · rename_i s1 heq
        have hps : s1.section_pointers = s.section_pointers := by
          split at heq
          · exact parse_constant_ptrs _ _ heq
          · simp only [Except.ok.injEq] at heq; subst heq; rfl
        rw [sweepA_ptrs fuel s1.advance s' h, advance_ptrs, hps]

theorem sweepB_ok :
    ∀ (fuel : Nat) (s s' : P1State), sweepB fuel s = .ok s' → GoodP1 s →
      StepOK s s'
  | 0, _, _, h, _ => by simp [sweepB] at h
  | fuel + 1, s, s', h, hG => by
    unfold sweepB at h
    split at h
    · simp only [Except.ok.injEq] at h; subst h; exact StepOK.refl s
    · dsimp only at h
      split at h
      · exact absurd h (by simp)
      · rename_i s1 heq
        have hstep : StepOK s s1 := by
          split at heq
          · -- label
            simp only [Except.ok.injEq] at heq; subst heq
            exact stepOK_parse_label s
          split at heq
          · -- identifier: pointer advance for (pseudo-)instructions, then
            -- the consume-until-newline loop
            try dsimp only at heq
            split at heq
            · exact (stepOK_pointer_advance s 2 none (by norm_num)).trans
                (stepOK_consumeLine fuel _ s1 heq)
            · split at heq
              · rename_i size hps
                exact (stepOK_pointer_advance s size none
                  (pseudo_size_nonneg hps)).trans
                  (stepOK_consumeLine fuel _ s1 heq)
              · exact stepOK_consumeLine fuel s s1 heq
          split at heq
          · rename_i hdty
            exact stepOK_parse_directive fuel s s1 hG hdty heq
          · simp only [Except.ok.injEq] at heq; subst heq; exact StepOK.refl s
        try dsimp only at h
        split at h
        · have hnext : StepOK s ((s1.addError ("Unexpected token " ++ apos ++
              s1.current_token.value ++ apos) s1.current_token.line
              s1.current_token.column).advance) :=
            hstep.trans ((stepOK_addError _ _ _ _).trans (stepOK_advance _))
          exact hnext.trans (sweepB_ok fuel _ s' h (hnext.2 hG))
        · have hnext : StepOK s s1.advance := hstep.trans (stepOK_advance s1)
          exact hnext.trans (sweepB_ok fuel _ s' h (hnext.2 hG))

/-- C6 amended: throughout the first pass, section location counters only
advance except through an explicit `.org` directive or a `.space`
directive with a negative operand.  Sweep A (constants) never changes a
pointer at all; and from any sweep-B state satisfying `GoodP1` — no
`.org` token anywhere, the parser's cursor aliasing, and every `.space`
operand at or after the cursor non-negative whenever it parses — the
pointers at the end of the run are pointwise at least the pointers at the
start (the start state being arbitrary, this holds between every pair of
intermediate states as well).  Streams containing `.space` directives
with non-negative operands are covered; `c6_counterexample` shows a
negative operand indeed moves a pointer backwards. -/
theorem c6_amended :
    (∀ (fuel : Nat) (s s' : P1State), sweepA fuel s = .ok s' →
        s'.section_pointers = s.section_pointers) ∧
    (∀ (fuel : Nat) (s s' : P1State), GoodP1 s → sweepB fuel s = .ok s' →
        s.section_pointers.le s'.section_pointers) :=
  ⟨sweepA_ptrs, fun fuel s s' hG h => (sweepB_ok fuel s s' h hG).1⟩

/-- C6 witness: the `.data`/`.space 4` stream — a `.space` directive with
a non-negative operand — satisfies the invariant and its sweep-B run does
not decrease any pointer. -/
theorem c6_amended_witness :
    (P1State.init c6wToks).section_pointers.le c6wFinal.section_pointers :=
  c6_amended.2 60 (P1State.init c6wToks) c6wFinal
    ⟨by intro t ht; fin_cases ht <;> decide,
     by decide,
     fun _ => rfl,
     fun i _ t u ht hu _ n hn =>
       allNonneg_of_all c6wToks (by decide) u (List.get?_mem hu) n hn⟩
    (by decide)

end ZX16
